import Mathlib

/-!
Verification development for the neondrive road/vehicle simulation.

The definitions below are a shallow embedding of the JavaScript sources:
  - geometry utilities (`Utils`),
  - the road-graph builder (`RoadNetwork.parse` and its helpers),
  - the vehicle entity (`Car`): spawn, per-frame update, intersection
    resolution and the pairwise collision check.

JavaScript numbers are modelled as exact reals.  `Math.random()` results are
passed in as explicit parameters (a real `r` in `[0,1)` for the weighted
choice, a natural index `k` for road selection, matching
`Math.floor(Math.random() * roads.length)`).  Object reference identity
(`===`) is modelled by explicit `isSelf` flags.  Out-of-bounds list accesses,
which would fault in the source, are modelled with `getD` defaults; the
theorems below never traverse such states.
-/

open scoped Classical

set_option maxHeartbeats 1000000

namespace NeonDrive

/-- A planar point, `{x, y}` in the source. -/
structure Pt where
  x : ℝ
  y : ℝ

instance : Inhabited Pt := ⟨⟨0, 0⟩⟩

/-- `Utils.dist`: Euclidean distance, `Math.hypot(p2.x - p1.x, p2.y - p1.y)`. -/
noncomputable def Utils.dist (p1 p2 : Pt) : ℝ :=
  Real.sqrt ((p2.x - p1.x) ^ 2 + (p2.y - p1.y) ^ 2)

/-- `Utils.lerp`: linear interpolation `start * (1 - t) + end * t`. -/
def Utils.lerp (a b t : ℝ) : ℝ := a * (1 - t) + b * t

/-- `Utils.angleTo`: `Math.atan2(p2.y - p1.y, p2.x - p1.x)`, i.e. the argument
of the complex number `(p2.x - p1.x) + (p2.y - p1.y) i`, valued in `(-π, π]`. -/
noncomputable def Utils.angleTo (p1 p2 : Pt) : ℝ :=
  Complex.arg ⟨p2.x - p1.x, p2.y - p1.y⟩

/-- First normalisation loop of `Utils.angleDiff`:
`while (diff > Math.PI) diff -= Math.PI * 2`. -/
noncomputable def Utils.angleDiffDown (diff : ℝ) : ℝ :=
  if diff > Real.pi then Utils.angleDiffDown (diff - Real.pi * 2) else diff
termination_by (⌈(diff - Real.pi) / (Real.pi * 2)⌉).toNat
decreasing_by
  have hpi : (0:ℝ) < Real.pi * 2 := by positivity
  have key : (diff - Real.pi * 2 - Real.pi) / (Real.pi * 2)
      = (diff - Real.pi) / (Real.pi * 2) - 1 := by
    field_simp
    ring
  have hpos : 0 < ⌈(diff - Real.pi) / (Real.pi * 2)⌉ :=
    Int.ceil_pos.mpr (div_pos (by linarith) hpi)
  rw [key, Int.ceil_sub_one]
  omega

/-- Second normalisation loop of `Utils.angleDiff`:
`while (diff < -Math.PI) diff += Math.PI * 2`. -/
noncomputable def Utils.angleDiffUp (diff : ℝ) : ℝ :=
  if diff < -Real.pi then Utils.angleDiffUp (diff + Real.pi * 2) else diff
termination_by (⌈(-Real.pi - diff) / (Real.pi * 2)⌉).toNat
decreasing_by
  have hpi : (0:ℝ) < Real.pi * 2 := by positivity
  have key : (-Real.pi - (diff + Real.pi * 2)) / (Real.pi * 2)
      = (-Real.pi - diff) / (Real.pi * 2) - 1 := by
    field_simp
    ring
  have hpos : 0 < ⌈(-Real.pi - diff) / (Real.pi * 2)⌉ :=
    Int.ceil_pos.mpr (div_pos (by linarith) hpi)
  rw [key, Int.ceil_sub_one]
  omega

/-- `Utils.angleDiff`: smallest difference between two angles, the source runs
the `diff -= 2π` loop first and the `diff += 2π` loop second. -/
noncomputable def Utils.angleDiff (a1 a2 : ℝ) : ℝ :=
  Utils.angleDiffUp (Utils.angleDiffDown (a2 - a1))

/-- A graph node, `{id, x, y, outgoing: []}` in `RoadNetwork.getOrCreateNode`.
The id is the quantised coordinate key `"round(x),round(y)"`, modelled as the
integer pair itself (the string rendering is injective on integer pairs).
`outgoing` stores road ids; the source stores references into the master road
list, and road ids coincide with master-list indices. -/
structure Node where
  id : ℤ × ℤ
  x : ℝ
  y : ℝ
  outgoing : List ℕ

instance : Inhabited Node := ⟨⟨(0, 0), 0, 0, []⟩⟩

/-- A directed road segment as built by `RoadNetwork.createRoadSegment`.
`reverseId` is `-1` until the pair is cross-linked in `parse`. -/
structure Road where
  id : ℕ
  points : List Pt
  startNodeIdx : ℕ
  endNodeIdx : ℕ
  startAngle : ℝ
  reverseId : ℤ

instance : Inhabited Road := ⟨⟨0, [], 0, 0, 0, -1⟩⟩

/-- The road network: `this.nodes` and `this.roads`.  The spatial grid
(`this.grid`, `addToGrid`, `getRoadsInRect`) is render-only state that none of
the claims touch, so it is not carried in the model. -/
structure RoadNetwork where
  nodes : List Node
  roads : List Road

/-- One GeoJSON line feature: its `geometry.coordinates`, a list of
`(longitude, latitude)` pairs. -/
structure Feature where
  coords : List (ℝ × ℝ)

/-- The quantised coordinate key: `getKey` in `parse`,
`(p) => round(p.x) + "," + round(p.y)`.  JavaScript `Math.round` rounds
half-up, which is Mathlib `round` on the reals. -/
noncomputable def getKey (p : Pt) : ℤ × ℤ := (round p.x, round p.y)

/-- `RoadNetwork.createProjection`: equirectangular projection about the
bounding-box centre of all feature coordinates.  The source folds min/max from
`±Infinity`; over a nonempty coordinate list this equals `min?/max?`
(and an empty input projects no point at all, so the `getD 0` default is never
observable). -/
noncomputable def RoadNetwork.createProjection (features : List Feature) :
    ℝ × ℝ → Pt :=
  let allCoords := (features.map Feature.coords).flatten
  let minLon := (allCoords.map Prod.fst).min?.getD 0
  let maxLon := (allCoords.map Prod.fst).max?.getD 0
  let minLat := (allCoords.map Prod.snd).min?.getD 0
  let maxLat := (allCoords.map Prod.snd).max?.getD 0
  let centerLon := (minLon + maxLon) / 2
  let centerLat := (minLat + maxLat) / 2
  let scale : ℝ := 111139
  fun c =>
    ⟨(c.1 - centerLon) * scale * Real.cos (centerLat * Real.pi / 180),
     -(c.2 - centerLat) * scale⟩

/-- Pass 1 of `parse`: occurrence count of each quantised key over all
projected feature points (the `pointCounts` map). -/
noncomputable def RoadNetwork.pointCounts (features : List Feature)
    (project : ℝ × ℝ → Pt) : ℤ × ℤ → ℕ :=
  fun key => (((features.map Feature.coords).flatten).map
    (fun c => getKey (project c))).count key

/-- `RoadNetwork.getOrCreateNode`: find a node by key (`nodes.find` followed by
`nodes.indexOf`, which yields the first matching index) or append a fresh one;
returns the updated node list and the node index. -/
noncomputable def RoadNetwork.getOrCreateNode (nodes : List Node)
    (key : ℤ × ℤ) (point : Pt) : List Node × ℕ :=
  match nodes.findIdx? (fun n => n.id == key) with
  | some i => (nodes, i)
  | none =>
      (nodes ++ [{ id := key, x := point.x, y := point.y, outgoing := [] }],
       nodes.length)

/-- The look-ahead loop of `RoadNetwork.calculateRoadAngle`:
`while (i < points.length - 1 && dist(points[0], points[i]) < 10) i++`. -/
noncomputable def RoadNetwork.lookAhead (points : List Pt) (i : ℕ) : ℕ :=
  if i < points.length - 1 ∧
      Utils.dist (points.getD 0 default) (points.getD i default) < 10 then
    RoadNetwork.lookAhead points (i + 1)
  else i
termination_by points.length - i
decreasing_by omega

/-- `RoadNetwork.calculateRoadAngle`: bearing from the first point to the
first point at least 10 units away (or the last usable index). -/
noncomputable def RoadNetwork.calculateRoadAngle (points : List Pt) : ℝ :=
  let lookAheadIndex := RoadNetwork.lookAhead points 1
  Utils.angleTo (points.getD 0 default) (points.getD lookAheadIndex default)

/-- `RoadNetwork.createRoadSegment` (grid insertion omitted, see
`RoadNetwork`): resolve or create the endpoint nodes, snap the first and last
point to the node coordinates, build the road with `id = roads.length` and
`reverseId = -1`, register it as outgoing from its start node.  Returns the
new network and the snapped point list (the source mutates the passed array in
place, and `parse` reads the mutated array to build the reverse segment). -/
noncomputable def RoadNetwork.createRoadSegment (net : RoadNetwork)
    (points : List Pt) : RoadNetwork × List Pt :=
  let startKey := getKey (points.getD 0 default)
  let endKey := getKey (points.getLastD default)
  let r1 := RoadNetwork.getOrCreateNode net.nodes startKey (points.getD 0 default)
  let r2 := RoadNetwork.getOrCreateNode r1.1 endKey (points.getLastD default)
  let nodes2 := r2.1
  let si := r1.2
  let ei := r2.2
  let sNode := nodes2.getD si default
  let eNode := nodes2.getD ei default
  let snapped := (points.set 0 ⟨sNode.x, sNode.y⟩).set (points.length - 1)
    ⟨eNode.x, eNode.y⟩
  let road : Road :=
    { id := net.roads.length, points := snapped, startNodeIdx := si,
      endNodeIdx := ei, startAngle := RoadNetwork.calculateRoadAngle snapped,
      reverseId := -1 }
  let nodes3 :=
    match nodes2.get? si with
    | some n => nodes2.set si { n with outgoing := n.outgoing ++ [road.id] }
    | none => nodes2
  (⟨nodes3, net.roads ++ [road]⟩, snapped)

/-- The cross-linking step of `parse`:
`roads[len-2].reverseId = roads[len-1].id` and conversely. -/
noncomputable def RoadNetwork.linkLastTwo (roads : List Road) : List Road :=
  if roads.length < 2 then roads
  else
    let roadA := roads.getD (roads.length - 2) default
    let roadB := roads.getD (roads.length - 1) default
    roads.take (roads.length - 2) ++
      [{ roadA with reverseId := (roadB.id : ℤ) },
       { roadB with reverseId := (roadA.id : ℤ) }]

/-- The emission step of `parse`: create the forward segment, create the
reverse segment over the snapped points reversed, and cross-link the two. -/
noncomputable def RoadNetwork.emitSegmentPair (net : RoadNetwork)
    (pts : List Pt) : RoadNetwork :=
  let r1 := net.createRoadSegment pts
  let r2 := r1.1.createRoadSegment r1.2.reverse
  ⟨r2.1.nodes, RoadNetwork.linkLastTwo r2.1.roads⟩

/-- Pass 2 of `parse` over one feature: walk the coordinates accumulating
`currentSegmentPoints`, and emit a forward/reverse pair whenever the current
point is an intersection or the last point and at least two points have
accumulated; the accumulator restarts from the split point. -/
noncomputable def RoadNetwork.splitWalk (project : ℝ × ℝ → Pt)
    (counts : ℤ × ℤ → ℕ) :
    RoadNetwork → List Pt → List (ℝ × ℝ) → RoadNetwork
  | net, _, [] => net
  | net, currentSegmentPoints, c :: rest =>
      let p := project c
      let acc := currentSegmentPoints ++ [p]
      let isIntersection := counts (getKey p) > 1
      let isLastPoint := rest = []
      if (isIntersection ∨ isLastPoint) ∧ acc.length > 1 then
        RoadNetwork.splitWalk project counts (net.emitSegmentPair acc) [p] rest
      else
        RoadNetwork.splitWalk project counts net acc rest

/-- `RoadNetwork.parse`: reset the graph, project and count all points, then
split every feature into cross-linked forward/reverse segment pairs. -/
noncomputable def RoadNetwork.parse (features : List Feature) : RoadNetwork :=
  let project := RoadNetwork.createProjection features
  let counts := RoadNetwork.pointCounts features project
  features.foldl
    (fun net f => RoadNetwork.splitWalk project counts net [] f.coords)
    ⟨[], []⟩

/-- The player half of the object passed to `update`: the input handler's
`accelerating`/`braking` flags and `mouseAngle`.  Bots receive
`{player, bots}` instead; JavaScript reads of fields the caller did not set
yield the defaults below. -/
structure PlayerRef where
  x : ℝ
  y : ℝ
  crashed : Bool

/-- A bot as seen through the AI sensor list.  `isSelf` models the
`b === this` reference-identity test in the repulsion scan. -/
structure BotRef where
  x : ℝ
  y : ℝ
  isSelf : Bool

/-- The dynamic `input` object of `Car.update` / `Car.handleIntersection`. -/
structure Input where
  accelerating : Bool := false
  braking : Bool := false
  mouseAngle : ℝ := 0
  player : Option PlayerRef := none
  bots : Option (List BotRef) := none

instance : Inhabited Input := ⟨{}⟩

/-- The `Car` entity state (`src/car.js`).  The per-car settings from the
constructor are carried as fields. -/
structure Car where
  network : RoadNetwork
  isBot : Bool
  maxSpeed : ℝ
  acceleration : ℝ
  friction : ℝ
  maxTrailLength : ℕ
  currentRoad : Road
  pointIndex : ℕ
  t : ℝ
  speed : ℝ
  x : ℝ
  y : ℝ
  angle : ℝ
  trail : List Pt
  crashed : Bool
  crashReason : String

/-- `Car.spawn`: pick road `k` (modelling
`Math.floor(Math.random() * roads.length)`), reset the kinematic state to the
segment start, seed the trail with the start point, give bots their cruise
speed, and clear the crashed flag.  The source does not touch `crashReason`
and does not touch a player's speed. -/
noncomputable def Car.spawn (c : Car) (k : ℕ) : Car :=
  if c.network.roads.length = 0 then c
  else
    let road := c.network.roads.getD k default
    let p0 := road.points.getD 0 default
    { c with currentRoad := road, pointIndex := 0, t := 0,
             x := p0.x, y := p0.y, trail := [⟨p0.x, p0.y⟩],
             speed := if c.isBot then c.maxSpeed * 0.8 else c.speed,
             crashed := false }

/-- Step 1 of `Car.update`: input/AI speed adjustment, friction, and the
zero floor.  A player with a null `input` falls into the bot cruise branch,
as in the source (`!this.isBot && input`). -/
noncomputable def Car.physSpeed (c : Car) (input : Option Input) : ℝ :=
  let s :=
    if c.isBot = false ∧ input.isSome then
      let inp := input.getD default
      if inp.accelerating then c.speed + c.acceleration
      else if inp.braking then c.speed - c.acceleration * 1.5
      else c.speed
    else
      if c.speed < c.maxSpeed then c.speed + c.acceleration else c.speed
  let s2 := s * c.friction
  if s2 < 0 then 0 else s2

/-- `this.currentRoad.points[this.pointIndex]`. -/
def Car.segP1 (c : Car) : Pt := c.currentRoad.points.getD c.pointIndex default

/-- `this.currentRoad.points[this.pointIndex + 1]`. -/
def Car.segP2 (c : Car) : Pt :=
  c.currentRoad.points.getD (c.pointIndex + 1) default

/-- The per-update advance of `t`:
`segmentLen > 0 ? speed / segmentLen : 1`. -/
noncomputable def Car.stepSize (c : Car) (s : ℝ) : ℝ :=
  let segmentLen := Utils.dist c.segP1 c.segP2
  if segmentLen > 0 then s / segmentLen else 1

/-- The trail logic of `Car.update`: push the new position when it is more
than 5 units from the last trail point, then shift the oldest point once the
configured cap is exceeded. -/
noncomputable def Car.trailNext (c : Car) (pos : Pt) : List Pt :=
  if Utils.dist (c.trail.getLastD default) pos > 5 then
    let pushed := c.trail ++ [pos]
    if pushed.length > c.maxTrailLength then pushed.tail else pushed
  else c.trail

/-- Step 2 of `Car.update` (called with the speed already updated): advance
`t`, recompute position by interpolation and heading by bearing, and update
the trail. -/
noncomputable def Car.moved (c : Car) : Car :=
  let p1 := c.segP1
  let p2 := c.segP2
  let tNew := c.t + c.stepSize c.speed
  let pos : Pt := ⟨Utils.lerp p1.x p2.x tNew, Utils.lerp p1.y p2.y tNew⟩
  { c with t := tNew, x := pos.x, y := pos.y,
           angle := Utils.angleTo p1 p2, trail := c.trailNext pos }

/-- The repulsion scan of the bot AI: find the closest non-self bot.  The
source starts from `closestDist = Infinity`; `none` plays that role, every
real distance being below it. -/
noncomputable def closestScan (pos : Pt) (otherBots : List BotRef) :
    Option (BotRef × ℝ) :=
  otherBots.foldl
    (fun closest b =>
      if b.isSelf then closest
      else
        let d := Utils.dist pos ⟨b.x, b.y⟩
        match closest with
        | none => some (b, d)
        | some q => if d < q.2 then some (b, d) else closest)
    none

/-- The attraction sensor of the bot AI: `(hasAttraction, attractionAngle)`,
set when a non-crashed player reference is present. -/
noncomputable def Car.attractionOf (c : Car) (sensorData : Input) : Bool × ℝ :=
  match sensorData.player with
  | some player =>
      if player.crashed = false then
        (true, Utils.angleTo ⟨c.x, c.y⟩ ⟨player.x, player.y⟩)
      else (false, 0)
  | none => (false, 0)

/-- The repulsion sensor of the bot AI:
`(repulsionStrength, repulsionAngle)`, set when the closest other bot is
within the 300-unit detection radius; the angle points away from it. -/
noncomputable def Car.repulsionOf (c : Car) (sensorData : Input) : ℝ × ℝ :=
  match sensorData.bots with
  | none => (0, 0)
  | some otherBots =>
      match closestScan ⟨c.x, c.y⟩ otherBots with
      | none => (0, 0)
      | some q =>
          if q.2 < 300 then
            (1 - q.2 / 300, Utils.angleTo ⟨q.1.x, q.1.y⟩ ⟨c.x, c.y⟩)
          else (0, 0)

/-- The weight of one candidate road in the bot AI: base 1, plus the
attraction alignment score times 10, plus the repulsion alignment score times
50 times the proximity fraction. -/
noncomputable def Car.botWeight (road : Road) (hasAttraction : Bool)
    (attractionAngle repulsionStrength repulsionAngle : ℝ) : ℝ :=
  let w1 : ℝ := 1
  let w2 :=
    if hasAttraction then
      w1 + (1 - |Utils.angleDiff road.startAngle attractionAngle| / Real.pi) * 10
    else w1
  if repulsionStrength > 0 then
    w2 + (1 - |Utils.angleDiff road.startAngle repulsionAngle| / Real.pi) * 50
      * repulsionStrength
  else w2

/-- The candidate/weight pairs the bot AI builds (`weightedOptions`). -/
noncomputable def Car.weightedOptions (c : Car) (sensorData : Input)
    (candidates : List Road) : List (Road × ℝ) :=
  candidates.map (fun road =>
    (road, Car.botWeight road (c.attractionOf sensorData).1
      (c.attractionOf sensorData).2 (c.repulsionOf sensorData).1
      (c.repulsionOf sensorData).2))

/-- The stochastic selection loop: subtract each weight from the drawn value
and stop at the first candidate driving it non-positive; `bestRoad` is the
pre-loop value (`candidates[0]`), returned if the loop never breaks. -/
noncomputable def selectWeighted (options : List (Road × ℝ))
    (randomValue : ℝ) (bestRoad : Road) : Road :=
  match options with
  | [] => bestRoad
  | option :: rest =>
      if randomValue - option.2 ≤ 0 then option.1
      else selectWeighted rest (randomValue - option.2) bestRoad

/-- The whole bot branch of `handleIntersection`: weights, total, and the
stochastic selection with `randomValue = r * totalWeight`, `r` standing for
the `Math.random()` draw. -/
noncomputable def Car.botChoose (c : Car) (sensorData : Input)
    (candidates : List Road) (r : ℝ) : Road :=
  let weightedOptions := c.weightedOptions sensorData candidates
  let totalWeight := weightedOptions.foldl (fun acc wo => acc + wo.2) 0
  selectWeighted weightedOptions (r * totalWeight) (candidates.getD 0 default)

/-- The player branch of `handleIntersection`: minimise the absolute angular
difference to the mouse angle; the fold keeps the first strict minimum, and
`none` models the initial `minAngleDiff = Infinity`. -/
noncomputable def playerPick (mouseAngle : ℝ) (candidates : List Road)
    (bestRoad : Road) : Road :=
  (candidates.foldl
    (fun acc road =>
      let diff := |Utils.angleDiff mouseAngle road.startAngle|
      match acc.2 with
      | none => (road, some diff)
      | some minAngleDiff =>
          if diff < minAngleDiff then (road, some diff) else acc)
    (bestRoad, (none : Option ℝ))).1

/-- The dead-end branch of `handleIntersection`: bots respawn, the player
crashes with reason `"DEAD END"`. -/
noncomputable def Car.deadEnd (c : Car) (k : ℕ) : Car :=
  if c.isBot then c.spawn k
  else { c with crashed := true, crashReason := "DEAD END" }

/-- The candidate set at an intersection: the end node's outgoing roads with
the immediate U-turn filtered out, the full outgoing set being restored when
the filter leaves nothing. -/
noncomputable def Car.intersectionCandidates (c : Car) (intersection : Node) :
    List Road :=
  let outgoing := intersection.outgoing.map
    (fun i => c.network.roads.getD i default)
  let candidates := outgoing.filter
    (fun rd => (rd.id : ℤ) != c.currentRoad.reverseId)
  if candidates.length = 0 then outgoing else candidates

/-- `Car.handleIntersection`: dead-end handling, candidate filtering, the
bot/player choice, the turn penalty
`speed *= max(0.2, 1 - (turnAngle/π) * 1.5)`, and the switch to the chosen
road.  `input.getD default` models the dynamic field reads on the `input`
object. -/
noncomputable def Car.handleIntersection (c : Car) (input : Option Input)
    (r : ℝ) (k : ℕ) : Car :=
  match c.network.nodes.get? c.currentRoad.endNodeIdx with
  | none => c.deadEnd k
  | some intersection =>
      if intersection.outgoing = [] then c.deadEnd k
      else
        let candidates := c.intersectionCandidates intersection
        let bestRoad :=
          if c.isBot then c.botChoose (input.getD default) candidates r
          else playerPick (input.getD default).mouseAngle candidates
            (candidates.getD 0 default)
        let turnAngle := |Utils.angleDiff c.angle bestRoad.startAngle|
        let penalty := max 0.2 (1 - turnAngle / Real.pi * 1.5)
        { c with speed := c.speed * penalty, currentRoad := bestRoad,
                 pointIndex := 0, t := 0 }

/-- `Car.update`: no-op when crashed; speed physics; the sub-0.1 early
return; geometric movement; segment-end bookkeeping and intersection
resolution. -/
noncomputable def Car.update (c : Car) (input : Option Input) (r : ℝ)
    (k : ℕ) : Car :=
  if c.crashed then c
  else
    let c1 := { c with speed := c.physSpeed input }
    if c1.speed < 0.1 then c1
    else
      let c2 := c1.moved
      if 1 ≤ c2.t then
        let c3 := { c2 with t := 0, pointIndex := c2.pointIndex + 1 }
        if c3.currentRoad.points.length - 1 ≤ c3.pointIndex then
          c3.handleIntersection input r k
        else c3
      else c2

/-- `Car.checkCollision`: the body-to-body check (threshold 5, both crash,
both respawn when both are bots) followed by the body-to-trail check
(threshold 4, only the scanning car crashes, a bot respawns only off another
bot's trail).  `isSelf` models `otherCar === this`; the source loop crashes
at the first trail point within range, which has the same resulting state as
the existential used here. -/
noncomputable def Car.checkCollision (c otherCar : Car) (isSelf : Bool)
    (k1 k2 : ℕ) : Car × Car :=
  if c.crashed then (c, otherCar)
  else if isSelf then (c, otherCar)
  else if otherCar.crashed = false ∧
      Utils.dist ⟨c.x, c.y⟩ ⟨otherCar.x, otherCar.y⟩ < 5 then
    let cC := { c with crashed := true, crashReason := "HEAD-ON COLLISION" }
    let oC :=
      { otherCar with crashed := true, crashReason := "HEAD-ON COLLISION" }
    if cC.isBot = true ∧ oC.isBot = true then (cC.spawn k1, oC.spawn k2)
    else (cC, oC)
  else if otherCar.trail.length < 2 then (c, otherCar)
  else if ∃ p ∈ otherCar.trail, Utils.dist ⟨c.x, c.y⟩ p < 4 then
    let cC := { c with crashed := true, crashReason := "TRACE COLLISION" }
    if cC.isBot = true ∧ otherCar.isBot = true then (cC.spawn k1, otherCar)
    else (cC, otherCar)
  else (c, otherCar)

/-- Modelled from the spec: the avoid-point spawn restriction.  The game
controller passes the player position as a third `Car` argument
(`new Car(network, true, playerPos)` in `initGame` and `handleRestart`), but
the `Car.spawn` present under `src/` takes no such parameter, so the
candidate restriction it is meant to apply is reconstructed from the spec:
restrict to roads whose first point lies beyond 500 units of `avoidPoint`,
falling back to the whole road set when nothing qualifies or no point is
given. -/
noncomputable def spawnCandidates (roads : List Road) (avoidPoint : Option Pt) :
    List Road :=
  match avoidPoint with
  | none => roads
  | some a =>
      let far := roads.filter
        (fun rd => decide (500 < Utils.dist (rd.points.getD 0 default) a))
      if far.length = 0 then roads else far


/-! ### Invariants and predicates stated over the embedded program -/

/-- The reverse-linkage property claimed for built graphs, read off position
`i` of the road list: the road there, if any, either cross-links with a road
whose `reverseId` points back, or carries the dead-end sentinel `-1`. -/
def revSymAt (roads : List Road) (i : ℕ) : Prop :=
  match roads.get? i with
  | none => True
  | some r =>
      (∃ r2 ∈ roads, r.reverseId = (r2.id : ℤ) ∧ r2.reverseId = (r.id : ℤ)) ∨
      r.reverseId = -1

/-- Structural invariant of the road list maintained by `parse`: roads come
in adjacent cross-linked pairs and ids coincide with indices. -/
def pairLinked (roads : List Road) : Prop :=
  roads.length % 2 = 0 ∧
  ∀ i r, roads.get? i = some r →
    r.id = i ∧
    r.reverseId = (if i % 2 = 0 then (i : ℤ) + 1 else (i : ℤ) - 1)

/-- The configuration of the straight-road acceleration scenario: a player
car with the constructor constants, plus a speed range that is preserved by
`update` under a held accelerator. -/
def C4Inv (c : Car) : Prop :=
  c.isBot = false ∧ c.acceleration = 0.3 ∧ c.friction = 0.96 ∧
  c.maxSpeed = 35 ∧ 0 ≤ c.speed ∧ c.speed < 36 / 5

/-! ### Concrete fixtures for the witnesses and counterexamples -/

/-- An `input` object with every flag at its default. -/
def emptyInput : Input := {}

/-- The player input holding the accelerator. -/
def accelPlayerInput : Input := { accelerating := true }

/-- Iterated player updates under a held accelerator (the per-frame loop of
the acceleration scenario; the randomness parameters are irrelevant on the
player path). -/
noncomputable def Car.playerRun (c : Car) : ℕ → Car
  | 0 => c
  | n + 1 => (Car.playerRun c n).update (some accelPlayerInput) 0 0

/-- A long straight two-point road. -/
noncomputable def roadLong : Road :=
  { id := 0, points := [⟨0, 0⟩, ⟨1000, 0⟩], startNodeIdx := 0,
    endNodeIdx := 0, startAngle := 0, reverseId := -1 }

noncomputable def netLong : RoadNetwork := ⟨[], [roadLong]⟩

/-- A straight three-point road, for exhibiting a segment-boundary crossing. -/
noncomputable def roadThree : Road :=
  { id := 0, points := [⟨0, 0⟩, ⟨10, 0⟩, ⟨20, 0⟩], startNodeIdx := 0,
    endNodeIdx := 0, startAngle := 0, reverseId := -1 }

noncomputable def netThree : RoadNetwork := ⟨[], [roadThree]⟩

/-- A road whose first two polyline points coincide. -/
noncomputable def roadDegenerate : Road :=
  { id := 0, points := [⟨0, 0⟩, ⟨0, 0⟩, ⟨5, 0⟩], startNodeIdx := 0,
    endNodeIdx := 0, startAngle := 0, reverseId := -1 }

noncomputable def netDegenerate : RoadNetwork := ⟨[], [roadDegenerate]⟩

/-- A freshly constructed player car placed on the given network and road. -/
noncomputable def playerCarOn (net : RoadNetwork) (road : Road) : Car :=
  { network := net, isBot := false, maxSpeed := 35, acceleration := 0.3,
    friction := 0.96, maxTrailLength := 100, currentRoad := road,
    pointIndex := 0, t := 0, speed := 0, x := 0, y := 0, angle := 0,
    trail := [⟨0, 0⟩], crashed := false, crashReason := "" }

/-- The bot variant of `playerCarOn`. -/
noncomputable def botCarOn (net : RoadNetwork) (road : Road) : Car :=
  { playerCarOn net road with isBot := true, maxSpeed := 20 }

/-- A crashed player whose speed and crash reason are nonzero, exhibiting
what `spawn` leaves untouched. -/
noncomputable def crashedPlayer : Car :=
  { playerCarOn netLong roadLong with
      speed := 5, crashed := true, crashReason := "DEAD END" }

/-- A coasting player about to overshoot the first point pair of
`roadThree`. -/
noncomputable def ceCar : Car :=
  { playerCarOn netThree roadThree with speed := 20 }

/-- A slow player advancing within the first point pair of `roadLong`. -/
noncomputable def wCar : Car :=
  { playerCarOn netLong roadLong with speed := 2 }

/-- A player entering the degenerate point pair of `roadDegenerate`. -/
noncomputable def degCar : Car :=
  { playerCarOn netDegenerate roadDegenerate with speed := 20 }

/-- A bot standing at the origin of `netLong`. -/
noncomputable def botA : Car := botCarOn netLong roadLong

/-- A crashed player owning a two-point trail through the origin. -/
noncomputable def trailOwner : Car :=
  { playerCarOn netLong roadLong with
      crashed := true, trail := [⟨0, 0⟩, ⟨6, 0⟩] }

/-- A two-road mutual pair meeting at one node whose only outgoing road is
the reverse of `roadF`. -/
noncomputable def roadF : Road :=
  { id := 0, points := [⟨0, 0⟩, ⟨10, 0⟩], startNodeIdx := 1, endNodeIdx := 0,
    startAngle := 0, reverseId := 1 }

noncomputable def roadR : Road :=
  { id := 1, points := [⟨10, 0⟩, ⟨0, 0⟩], startNodeIdx := 0, endNodeIdx := 1,
    startAngle := 0, reverseId := 0 }

noncomputable def nodeEnd : Node :=
  { id := (10, 0), x := 10, y := 0, outgoing := [1] }

noncomputable def netPair : RoadNetwork := ⟨[nodeEnd], [roadF, roadR]⟩

noncomputable def carPair : Car := playerCarOn netPair roadF

/-- Candidate roads for the uniform-choice scenario. -/
noncomputable def candA : Road :=
  { id := 10, points := [], startNodeIdx := 0, endNodeIdx := 0,
    startAngle := 0, reverseId := -1 }

noncomputable def candB : Road := { candA with id := 11 }

noncomputable def candC : Road := { candA with id := 12 }

/-- Roads near to and far from the origin, for the avoid-point restriction. -/
noncomputable def roadNear : Road :=
  { id := 0, points := [⟨1, 0⟩, ⟨7, 0⟩], startNodeIdx := 0, endNodeIdx := 0,
    startAngle := 0, reverseId := -1 }

noncomputable def roadFar : Road :=
  { id := 1, points := [⟨600, 0⟩, ⟨700, 0⟩], startNodeIdx := 0,
    endNodeIdx := 0, startAngle := 0, reverseId := -1 }

/-! ### Basic facts about the geometry utilities -/

theorem Utils.dist_nonneg (p1 p2 : Pt) : 0 ≤ Utils.dist p1 p2 :=
  Real.sqrt_nonneg _

theorem Utils.dist_self_pt (p : Pt) : Utils.dist p p = 0 := by
  simp [Utils.dist]

theorem Utils.dist_horizontal (a b y : ℝ) :
    Utils.dist ⟨a, y⟩ ⟨b, y⟩ = |b - a| := by
  simp [Utils.dist, Real.sqrt_sq_eq_abs]

theorem Utils.lerp_mem_segment (a b t : ℝ) (h0 : 0 ≤ t) (h1 : t ≤ 1) :
    min a b ≤ Utils.lerp a b t ∧ Utils.lerp a b t ≤ max a b := by
  unfold Utils.lerp
  rcases le_total a b with hab | hab
  · rw [min_eq_left hab, max_eq_right hab]
    constructor <;> nlinarith
  · rw [min_eq_right hab, max_eq_left hab]
    constructor <;> nlinarith

theorem Utils.angleDiffDown_of_le (d : ℝ) (h : d ≤ Real.pi) :
    Utils.angleDiffDown d = d := by
  rw [Utils.angleDiffDown]
  simp [not_lt.mpr h]

theorem Utils.angleDiffUp_of_le (d : ℝ) (h : -Real.pi ≤ d) :
    Utils.angleDiffUp d = d := by
  rw [Utils.angleDiffUp]
  simp [not_lt.mpr h]

theorem Utils.angleDiff_of_small (a1 a2 : ℝ) (h1 : -Real.pi ≤ a2 - a1)
    (h2 : a2 - a1 ≤ Real.pi) : Utils.angleDiff a1 a2 = a2 - a1 := by
  unfold Utils.angleDiff
  rw [Utils.angleDiffDown_of_le _ h2, Utils.angleDiffUp_of_le _ h1]

/-! ### Branch characterisations of the `Car` operations -/

theorem clamp_zero_nonneg (x : ℝ) : 0 ≤ if x < 0 then 0 else x := by
  split
  · norm_num
  · exact not_lt.mp (by assumption)

theorem Car.physSpeed_nonneg (c : Car) (input : Option Input) :
    0 ≤ c.physSpeed input := by
  unfold Car.physSpeed
  dsimp only
  exact clamp_zero_nonneg _

theorem Car.stepSize_nonneg (c : Car) (s : ℝ) (hs : 0 ≤ s) :
    0 ≤ c.stepSize s := by
  unfold Car.stepSize
  dsimp only
  split
  · exact div_nonneg hs (le_of_lt (by assumption))
  · norm_num

theorem Car.moved_eq (c : Car) :
    c.moved =
      { c with t := c.t + c.stepSize c.speed,
               x := Utils.lerp c.segP1.x c.segP2.x (c.t + c.stepSize c.speed),
               y := Utils.lerp c.segP1.y c.segP2.y (c.t + c.stepSize c.speed),
               angle := Utils.angleTo c.segP1 c.segP2,
               trail := c.trailNext
                 ⟨Utils.lerp c.segP1.x c.segP2.x (c.t + c.stepSize c.speed),
                  Utils.lerp c.segP1.y c.segP2.y (c.t + c.stepSize c.speed)⟩ } :=
  rfl

theorem Car.stepSize_set_speed (c : Car) (v s : ℝ) :
    Car.stepSize { c with speed := v } s = c.stepSize s := rfl

theorem Car.segP1_set_speed (c : Car) (v : ℝ) :
    Car.segP1 { c with speed := v } = c.segP1 := rfl

theorem Car.segP2_set_speed (c : Car) (v : ℝ) :
    Car.segP2 { c with speed := v } = c.segP2 := rfl

theorem Car.trailNext_set_speed (c : Car) (v : ℝ) (p : Pt) :
    Car.trailNext { c with speed := v } p = c.trailNext p := rfl

theorem Car.update_crashed (c : Car) (input : Option Input) (r : ℝ) (k : ℕ)
    (hc : c.crashed = true) : c.update input r k = c := by
  unfold Car.update
  rw [if_pos hc]

theorem Car.update_slow (c : Car) (input : Option Input) (r : ℝ) (k : ℕ)
    (hc : c.crashed = false) (hs : c.physSpeed input < 0.1) :
    c.update input r k = { c with speed := c.physSpeed input } := by
  unfold Car.update
  rw [if_neg (by simp [hc])]
  dsimp only
  rw [if_pos hs]

theorem Car.update_move (c : Car) (input : Option Input) (r : ℝ) (k : ℕ)
    (hc : c.crashed = false) (hs : ¬ c.physSpeed input < 0.1)
    (ht : ¬ 1 ≤ c.t + c.stepSize (c.physSpeed input)) :
    c.update input r k =
      { c with speed := c.physSpeed input,
               t := c.t + c.stepSize (c.physSpeed input),
               x := Utils.lerp c.segP1.x c.segP2.x
                 (c.t + c.stepSize (c.physSpeed input)),
               y := Utils.lerp c.segP1.y c.segP2.y
                 (c.t + c.stepSize (c.physSpeed input)),
               angle := Utils.angleTo c.segP1 c.segP2,
               trail := c.trailNext
                 ⟨Utils.lerp c.segP1.x c.segP2.x
                    (c.t + c.stepSize (c.physSpeed input)),
                  Utils.lerp c.segP1.y c.segP2.y
                    (c.t + c.stepSize (c.physSpeed input))⟩ } := by
  unfold Car.update
  rw [if_neg (by simp [hc])]
  dsimp only
  rw [if_neg hs, Car.moved_eq]
  rw [Car.stepSize_set_speed, Car.segP1_set_speed, Car.segP2_set_speed,
    Car.trailNext_set_speed]
  dsimp only
  rw [if_neg ht]

theorem Car.update_cross (c : Car) (input : Option Input) (r : ℝ) (k : ℕ)
    (hc : c.crashed = false) (hs : ¬ c.physSpeed input < 0.1)
    (ht : 1 ≤ c.t + c.stepSize (c.physSpeed input))
    (hp : ¬ c.currentRoad.points.length - 1 ≤ c.pointIndex + 1) :
    c.update input r k =
      { c with speed := c.physSpeed input,
               t := 0,
               pointIndex := c.pointIndex + 1,
               x := Utils.lerp c.segP1.x c.segP2.x
                 (c.t + c.stepSize (c.physSpeed input)),
               y := Utils.lerp c.segP1.y c.segP2.y
                 (c.t + c.stepSize (c.physSpeed input)),
               angle := Utils.angleTo c.segP1 c.segP2,
               trail := c.trailNext
                 ⟨Utils.lerp c.segP1.x c.segP2.x
                    (c.t + c.stepSize (c.physSpeed input)),
                  Utils.lerp c.segP1.y c.segP2.y
                    (c.t + c.stepSize (c.physSpeed input))⟩ } := by
  unfold Car.update
  rw [if_neg (by simp [hc])]
  dsimp only
  rw [if_neg hs, Car.moved_eq]
  rw [Car.stepSize_set_speed, Car.segP1_set_speed, Car.segP2_set_speed,
    Car.trailNext_set_speed]
  dsimp only
  rw [if_pos ht]
  rw [if_neg hp]

theorem Car.update_intersect (c : Car) (input : Option Input) (r : ℝ) (k : ℕ)
    (hc : c.crashed = false) (hs : ¬ c.physSpeed input < 0.1)
    (ht : 1 ≤ c.t + c.stepSize (c.physSpeed input))
    (hp : c.currentRoad.points.length - 1 ≤ c.pointIndex + 1) :
    c.update input r k =
      Car.handleIntersection
        { c with speed := c.physSpeed input,
                 t := 0,
                 pointIndex := c.pointIndex + 1,
                 x := Utils.lerp c.segP1.x c.segP2.x
                   (c.t + c.stepSize (c.physSpeed input)),
                 y := Utils.lerp c.segP1.y c.segP2.y
                   (c.t + c.stepSize (c.physSpeed input)),
                 angle := Utils.angleTo c.segP1 c.segP2,
                 trail := c.trailNext
                   ⟨Utils.lerp c.segP1.x c.segP2.x
                      (c.t + c.stepSize (c.physSpeed input)),
                    Utils.lerp c.segP1.y c.segP2.y
                      (c.t + c.stepSize (c.physSpeed input))⟩ }
        input r k := by
  unfold Car.update
  rw [if_neg (by simp [hc])]
  dsimp only
  rw [if_neg hs, Car.moved_eq]
  rw [Car.stepSize_set_speed, Car.segP1_set_speed, Car.segP2_set_speed,
    Car.trailNext_set_speed]
  dsimp only
  rw [if_pos ht]
  rw [if_pos hp]

theorem Car.spawn_empty (c : Car) (k : ℕ)
    (h : c.network.roads.length = 0) : c.spawn k = c := by
  unfold Car.spawn
  rw [if_pos h]

theorem Car.spawn_eq (c : Car) (k : ℕ)
    (h : ¬ c.network.roads.length = 0) :
    c.spawn k =
      { c with currentRoad := c.network.roads.getD k default,
               pointIndex := 0, t := 0,
               x := ((c.network.roads.getD k default).points.getD 0 default).x,
               y := ((c.network.roads.getD k default).points.getD 0 default).y,
               trail := [⟨((c.network.roads.getD k default).points.getD 0
                   default).x,
                 ((c.network.roads.getD k default).points.getD 0 default).y⟩],
               speed := if c.isBot then c.maxSpeed * 0.8 else c.speed,
               crashed := false } := by
  unfold Car.spawn
  rw [if_neg h]

theorem Car.deadEnd_bot (c : Car) (k : ℕ) (hb : c.isBot = true) :
    c.deadEnd k = c.spawn k := by
  unfold Car.deadEnd
  rw [if_pos hb]

theorem Car.deadEnd_player (c : Car) (k : ℕ) (hb : c.isBot = false) :
    c.deadEnd k = { c with crashed := true, crashReason := "DEAD END" } := by
  unfold Car.deadEnd
  rw [if_neg (by simp [hb])]

theorem Car.handleIntersection_noNode (c : Car) (input : Option Input)
    (r : ℝ) (k : ℕ)
    (h : c.network.nodes.get? c.currentRoad.endNodeIdx = none) :
    c.handleIntersection input r k = c.deadEnd k := by
  unfold Car.handleIntersection
  rw [h]

theorem Car.handleIntersection_emptyOut (c : Car) (input : Option Input)
    (r : ℝ) (k : ℕ) (node : Node)
    (h : c.network.nodes.get? c.currentRoad.endNodeIdx = some node)
    (he : node.outgoing = []) :
    c.handleIntersection input r k = c.deadEnd k := by
  unfold Car.handleIntersection
  rw [h]
  dsimp only
  rw [if_pos he]

theorem Car.handleIntersection_main (c : Car) (input : Option Input)
    (r : ℝ) (k : ℕ) (node : Node) (bestRoad : Road)
    (h : c.network.nodes.get? c.currentRoad.endNodeIdx = some node)
    (he : ¬ node.outgoing = [])
    (hb : bestRoad =
      if c.isBot then
        c.botChoose (input.getD default) (c.intersectionCandidates node) r
      else
        playerPick (input.getD default).mouseAngle
          (c.intersectionCandidates node)
          ((c.intersectionCandidates node).getD 0 default)) :
    c.handleIntersection input r k =
      { c with speed := c.speed *
                 max 0.2 (1 - |Utils.angleDiff c.angle bestRoad.startAngle|
                   / Real.pi * 1.5),
               currentRoad := bestRoad, pointIndex := 0, t := 0 } := by
  unfold Car.handleIntersection
  rw [h]
  dsimp only
  rw [if_neg he, ← hb]

theorem Car.checkCollision_headOn (c otherCar : Car) (isSelf : Bool)
    (k1 k2 : ℕ) (hc : c.crashed = false) (hself : isSelf = false)
    (ho : otherCar.crashed = false)
    (hd : Utils.dist ⟨c.x, c.y⟩ ⟨otherCar.x, otherCar.y⟩ < 5) :
    c.checkCollision otherCar isSelf k1 k2 =
      if c.isBot = true ∧ otherCar.isBot = true then
        (Car.spawn { c with crashed := true, crashReason := "HEAD-ON COLLISION" } k1,
         Car.spawn { otherCar with crashed := true, crashReason := "HEAD-ON COLLISION" } k2)
      else
        ({ c with crashed := true, crashReason := "HEAD-ON COLLISION" },
         { otherCar with crashed := true, crashReason := "HEAD-ON COLLISION" }) := by
  subst hself
  unfold Car.checkCollision
  rw [if_neg (by simp [hc]), if_neg (by simp), if_pos ⟨ho, hd⟩]

theorem Car.checkCollision_trailShort (c otherCar : Car) (isSelf : Bool)
    (k1 k2 : ℕ) (hc : c.crashed = false) (hself : isSelf = false)
    (hguard : ¬ (otherCar.crashed = false ∧
      Utils.dist ⟨c.x, c.y⟩ ⟨otherCar.x, otherCar.y⟩ < 5))
    (hlen : otherCar.trail.length < 2) :
    c.checkCollision otherCar isSelf k1 k2 = (c, otherCar) := by
  subst hself
  unfold Car.checkCollision
  rw [if_neg (by simp [hc]), if_neg (by simp), if_neg hguard, if_pos hlen]

theorem Car.checkCollision_trailHit (c otherCar : Car) (isSelf : Bool)
    (k1 k2 : ℕ) (hc : c.crashed = false) (hself : isSelf = false)
    (hguard : ¬ (otherCar.crashed = false ∧
      Utils.dist ⟨c.x, c.y⟩ ⟨otherCar.x, otherCar.y⟩ < 5))
    (hlen : ¬ otherCar.trail.length < 2)
    (hhit : ∃ p ∈ otherCar.trail, Utils.dist ⟨c.x, c.y⟩ p < 4) :
    c.checkCollision otherCar isSelf k1 k2 =
      if c.isBot = true ∧ otherCar.isBot = true then
        (Car.spawn { c with crashed := true, crashReason := "TRACE COLLISION" } k1, otherCar)
      else
        ({ c with crashed := true, crashReason := "TRACE COLLISION" },
         otherCar) := by
  subst hself
  unfold Car.checkCollision
  rw [if_neg (by simp [hc]), if_neg (by simp), if_neg hguard, if_neg hlen,
    if_pos hhit]

theorem Car.checkCollision_noHit (c otherCar : Car) (isSelf : Bool)
    (k1 k2 : ℕ) (hc : c.crashed = false) (hself : isSelf = false)
    (hguard : ¬ (otherCar.crashed = false ∧
      Utils.dist ⟨c.x, c.y⟩ ⟨otherCar.x, otherCar.y⟩ < 5))
    (hlen : ¬ otherCar.trail.length < 2)
    (hhit : ¬ ∃ p ∈ otherCar.trail, Utils.dist ⟨c.x, c.y⟩ p < 4) :
    c.checkCollision otherCar isSelf k1 k2 = (c, otherCar) := by
  subst hself
  unfold Car.checkCollision
  rw [if_neg (by simp [hc]), if_neg (by simp), if_neg hguard, if_neg hlen,
    if_neg hhit]

theorem Car.spawn_crashReason (c : Car) (k : ℕ) :
    (c.spawn k).crashReason = c.crashReason := by
  unfold Car.spawn
  split <;> rfl

theorem Car.spawn_isBot (c : Car) (k : ℕ) : (c.spawn k).isBot = c.isBot := by
  unfold Car.spawn
  split <;> rfl

/-- C3 (amended): after every spawn call on a non-empty graph, the vehicle is
at the segment start (`pointIndex = 0`, `t = 0`, position equal to the first
point of the chosen road), its trail contains exactly the start point, and
the crashed flag is cleared.  A bot's speed is set to the cruise fraction
`0.8 * maxSpeed`; a player's speed is left unchanged (it is zero only because
the constructor zeroes it before the constructor-time spawn), and the crash
reason string is left unchanged rather than cleared. -/
theorem C3_spawn_state (c : Car) (k : ℕ)
    (hk : k < c.network.roads.length) :
    (c.spawn k).pointIndex = 0 ∧ (c.spawn k).t = 0 ∧
    (c.spawn k).currentRoad = c.network.roads.getD k default ∧
    (c.spawn k).x =
      ((c.network.roads.getD k default).points.getD 0 default).x ∧
    (c.spawn k).y =
      ((c.network.roads.getD k default).points.getD 0 default).y ∧
    (c.spawn k).trail = [⟨(c.spawn k).x, (c.spawn k).y⟩] ∧
    (c.spawn k).crashed = false ∧
    (c.spawn k).crashReason = c.crashReason ∧
    (c.spawn k).speed = (if c.isBot then c.maxSpeed * 0.8 else c.speed) := by
  have h0 : ¬ c.network.roads.length = 0 := by omega
  rw [Car.spawn_eq c k h0]
  exact ⟨rfl, rfl, rfl, rfl, rfl, rfl, rfl, rfl, rfl⟩

/-- Witness for C3 at a concrete crashed player on a one-road network. -/
theorem C3_spawn_state_witness :
    (crashedPlayer.spawn 0).pointIndex = 0 ∧
    (crashedPlayer.spawn 0).crashed = false := by
  have hk : 0 < crashedPlayer.network.roads.length := by
    simp [crashedPlayer, playerCarOn, netLong]
  exact ⟨(C3_spawn_state crashedPlayer 0 hk).1,
    (C3_spawn_state crashedPlayer 0 hk).2.2.2.2.2.2.1⟩

/-- C3 counterexample: `spawn` on a crashed player with residual speed 5 and
crash reason `"DEAD END"` neither zeroes the speed nor clears the reason, so
the claim that spawn yields "speed zero for a player" and "the crash reason
cleared" fails on this input. -/
theorem C3_counterexample :
    ¬ ((crashedPlayer.spawn 0).speed = 0 ∧
       (crashedPlayer.spawn 0).crashReason = "") := by
  have h0 : ¬ crashedPlayer.network.roads.length = 0 := by
    simp [crashedPlayer, playerCarOn, netLong]
  rw [Car.spawn_eq crashedPlayer 0 h0]
  intro h
  have h1 := h.1
  have h2 := h.2
  simp only [crashedPlayer, playerCarOn] at h1 h2
  norm_num at h1

/-- C5: for an ordered pair of distinct non-crashed vehicles closer than the
body-collision threshold 5, one `checkCollision` call marks both with reason
`"HEAD-ON COLLISION"`; when at least one is not a bot both end up crashed,
and when both are bots both are respawned (crashed flag cleared, kinematic
state back at a segment start) rather than remaining crashed. -/
theorem C5_head_on_collision (c otherCar : Car) (isSelf : Bool) (k1 k2 : ℕ)
    (hc : c.crashed = false) (ho : otherCar.crashed = false)
    (hself : isSelf = false)
    (hd : Utils.dist ⟨c.x, c.y⟩ ⟨otherCar.x, otherCar.y⟩ < 5) :
    ((c.checkCollision otherCar isSelf k1 k2).1.crashReason =
        "HEAD-ON COLLISION" ∧
     (c.checkCollision otherCar isSelf k1 k2).2.crashReason =
        "HEAD-ON COLLISION") ∧
    (¬ (c.isBot = true ∧ otherCar.isBot = true) →
      (c.checkCollision otherCar isSelf k1 k2).1.crashed = true ∧
      (c.checkCollision otherCar isSelf k1 k2).2.crashed = true) ∧
    (c.isBot = true → otherCar.isBot = true →
      k1 < c.network.roads.length → k2 < otherCar.network.roads.length →
      (c.checkCollision otherCar isSelf k1 k2).1.crashed = false ∧
      (c.checkCollision otherCar isSelf k1 k2).2.crashed = false ∧
      (c.checkCollision otherCar isSelf k1 k2).1.pointIndex = 0 ∧
      (c.checkCollision otherCar isSelf k1 k2).2.pointIndex = 0) := by
  rw [Car.checkCollision_headOn c otherCar isSelf k1 k2 hc hself ho hd]
  by_cases hbb : c.isBot = true ∧ otherCar.isBot = true
  · rw [if_pos hbb]
    refine ⟨⟨?_, ?_⟩, fun hmix => absurd hbb hmix, fun _ _ hk1 hk2 => ?_⟩
    · dsimp only
      rw [Car.spawn_crashReason]
    · dsimp only
      rw [Car.spawn_crashReason]
    · have e1 := Car.spawn_eq
        { c with crashed := true, crashReason := "HEAD-ON COLLISION" } k1
        (by dsimp only; omega)
      have e2 := Car.spawn_eq
        { otherCar with crashed := true, crashReason := "HEAD-ON COLLISION" }
        k2 (by dsimp only; omega)
      dsimp only
      rw [e1, e2]
      exact ⟨rfl, rfl, rfl, rfl⟩
  · rw [if_neg hbb]
    exact ⟨⟨rfl, rfl⟩, fun _ => ⟨rfl, rfl⟩, fun hb1 hb2 _ _ =>
      absurd ⟨hb1, hb2⟩ hbb⟩

/-- Witness for C5: two bots sharing the origin on a one-road network. -/
theorem C5_head_on_collision_witness :
    (botA.checkCollision botA false 0 0).1.crashReason =
      "HEAD-ON COLLISION" ∧
    (botA.checkCollision botA false 0 0).1.crashed = false := by
  have hd : Utils.dist ⟨botA.x, botA.y⟩ ⟨botA.x, botA.y⟩ < 5 := by
    rw [Utils.dist_self_pt]
    norm_num
  have h := C5_head_on_collision botA botA false 0 0 rfl rfl rfl hd
  refine ⟨h.1.1, ?_⟩
  have hk : 0 < botA.network.roads.length := by
    simp [botA, botCarOn, playerCarOn, netLong]
  exact (h.2.2 rfl rfl hk hk).1

/-- C6: in a body-to-trail check (the head-on branch not having fired), a
trail of at least two points with some point within the trail threshold 4 of
this vehicle's position crashes this vehicle with reason
`"TRACE COLLISION"`, leaves the other vehicle untouched, and a crashing bot
is respawned exactly when the trail owner is also a bot; a trail of fewer
than two points causes no trail collision at all. -/
theorem C6_trail_collision (c otherCar : Car) (isSelf : Bool) (k1 k2 : ℕ)
    (hc : c.crashed = false) (hself : isSelf = false)
    (hguard : ¬ (otherCar.crashed = false ∧
      Utils.dist ⟨c.x, c.y⟩ ⟨otherCar.x, otherCar.y⟩ < 5)) :
    (2 ≤ otherCar.trail.length →
      (∃ p ∈ otherCar.trail, Utils.dist ⟨c.x, c.y⟩ p < 4) →
      (c.checkCollision otherCar isSelf k1 k2).1.crashReason =
        "TRACE COLLISION" ∧
      (c.checkCollision otherCar isSelf k1 k2).2 = otherCar ∧
      (c.isBot = true → otherCar.isBot = true →
        k1 < c.network.roads.length →
        (c.checkCollision otherCar isSelf k1 k2).1.crashed = false) ∧
      (c.isBot = true → otherCar.isBot = false →
        (c.checkCollision otherCar isSelf k1 k2).1.crashed = true) ∧
      (c.isBot = false →
        (c.checkCollision otherCar isSelf k1 k2).1.crashed = true)) ∧
    (otherCar.trail.length < 2 →
      c.checkCollision otherCar isSelf k1 k2 = (c, otherCar)) := by
  constructor
  · intro hlen hhit
    rw [Car.checkCollision_trailHit c otherCar isSelf k1 k2 hc hself hguard
      (by omega) hhit]
    by_cases hbb : c.isBot = true ∧ otherCar.isBot = true
    · rw [if_pos hbb]
      refine ⟨?_, rfl, fun _ _ hk1 => ?_, fun _ hnb => ?_, fun hnb => ?_⟩
      · dsimp only
        rw [Car.spawn_crashReason]
      · have e1 := Car.spawn_eq
          { c with crashed := true, crashReason := "TRACE COLLISION" } k1
          (by dsimp only; omega)
        dsimp only
        rw [e1]
      · rw [hbb.2] at hnb
        exact absurd hnb (by simp)
      · rw [hbb.1] at hnb
        exact absurd hnb (by simp)
    · rw [if_neg hbb]
      exact ⟨rfl, rfl, fun hb1 hb2 _ => absurd ⟨hb1, hb2⟩ hbb,
        fun _ _ => rfl, fun _ => rfl⟩
  · intro hlen
    exact Car.checkCollision_trailShort c otherCar isSelf k1 k2 hc hself
      hguard hlen

/-- Witness for C6: a bot at the origin scanning the trail of a crashed
player whose trail passes through the origin stays crashed. -/
theorem C6_trail_collision_witness :
    (botA.checkCollision trailOwner false 0 0).1.crashReason =
      "TRACE COLLISION" ∧
    (botA.checkCollision trailOwner false 0 0).1.crashed = true ∧
    (botA.checkCollision trailOwner false 0 0).2 = trailOwner := by
  have hguard : ¬ (trailOwner.crashed = false ∧
      Utils.dist ⟨botA.x, botA.y⟩ ⟨trailOwner.x, trailOwner.y⟩ < 5) := by
    intro h
    have := h.1
    simp [trailOwner, playerCarOn] at this
  have hhit : ∃ p ∈ trailOwner.trail,
      Utils.dist ⟨botA.x, botA.y⟩ p < 4 := by
    refine ⟨⟨0, 0⟩, ?_, ?_⟩
    · simp [trailOwner, playerCarOn]
    · have : Utils.dist ⟨botA.x, botA.y⟩ ⟨0, 0⟩ =
          Utils.dist ⟨(0:ℝ), 0⟩ ⟨0, 0⟩ := rfl
      rw [this, Utils.dist_self_pt]
      norm_num
  have hlen : 2 ≤ trailOwner.trail.length := by
    simp [trailOwner, playerCarOn]
  have h := (C6_trail_collision botA trailOwner false 0 0 rfl rfl hguard).1
    hlen hhit
  exact ⟨h.1, h.2.2.2.1 rfl rfl, h.2.1⟩

theorem Car.deadEnd_pointIndex_t (c : Car) (k : ℕ) :
    ((c.deadEnd k).pointIndex = c.pointIndex ∨ (c.deadEnd k).pointIndex = 0) ∧
    ((c.deadEnd k).t = c.t ∨ (c.deadEnd k).t = 0) := by
  unfold Car.deadEnd Car.spawn
  split
  · split
    · exact ⟨Or.inl rfl, Or.inl rfl⟩
    · exact ⟨Or.inr rfl, Or.inr rfl⟩
  · exact ⟨Or.inl rfl, Or.inl rfl⟩

theorem Car.handleIntersection_pointIndex_t (c : Car) (input : Option Input)
    (r : ℝ) (k : ℕ) :
    ((c.handleIntersection input r k).pointIndex = c.pointIndex ∨
     (c.handleIntersection input r k).pointIndex = 0) ∧
    ((c.handleIntersection input r k).t = c.t ∨
     (c.handleIntersection input r k).t = 0) := by
  rcases hn : c.network.nodes.get? c.currentRoad.endNodeIdx with _ | node
  · rw [Car.handleIntersection_noNode c input r k hn]
    exact Car.deadEnd_pointIndex_t c k
  · by_cases he : node.outgoing = []
    · rw [Car.handleIntersection_emptyOut c input r k node hn he]
      exact Car.deadEnd_pointIndex_t c k
    · rw [Car.handleIntersection_main c input r k node _ hn he rfl]
      exact ⟨Or.inr rfl, Or.inr rfl⟩

/-- C10: when the two polyline points bracketing `pointIndex` coincide, the
per-update advance of `t` is the fallback value 1 rather than a division by
the zero segment length, so a moving update immediately reaches `t ≥ 1`:
afterwards `t` is reset to 0 and the degenerate point pair has been left
behind (`pointIndex` advanced, or reset by intersection handling within the
same update). -/
theorem C10_degenerate_segment (c : Car) (input : Option Input) (r : ℝ)
    (k : ℕ) (hc : c.crashed = false) (hs : ¬ c.physSpeed input < 0.1)
    (ht0 : 0 ≤ c.t) (hdeg : c.segP1 = c.segP2) :
    c.stepSize (c.physSpeed input) = 1 ∧
    (c.update input r k).t = 0 ∧
    ((c.update input r k).pointIndex = c.pointIndex + 1 ∨
     (c.update input r k).pointIndex = 0) := by
  have hdist : Utils.dist c.segP1 c.segP2 = 0 := by
    rw [hdeg]
    exact Utils.dist_self_pt _
  have hstep : c.stepSize (c.physSpeed input) = 1 := by
    unfold Car.stepSize
    dsimp only
    rw [hdist]
    simp
  have ht : 1 ≤ c.t + c.stepSize (c.physSpeed input) := by
    rw [hstep]
    linarith
  refine ⟨hstep, ?_⟩
  by_cases hp : c.currentRoad.points.length - 1 ≤ c.pointIndex + 1
  · rw [Car.update_intersect c input r k hc hs ht hp]
    have h2 := Car.handleIntersection_pointIndex_t
      { c with speed := c.physSpeed input, t := 0,
               pointIndex := c.pointIndex + 1,
               x := Utils.lerp c.segP1.x c.segP2.x
                 (c.t + c.stepSize (c.physSpeed input)),
               y := Utils.lerp c.segP1.y c.segP2.y
                 (c.t + c.stepSize (c.physSpeed input)),
               angle := Utils.angleTo c.segP1 c.segP2,
               trail := c.trailNext
                 ⟨Utils.lerp c.segP1.x c.segP2.x
                    (c.t + c.stepSize (c.physSpeed input)),
                  Utils.lerp c.segP1.y c.segP2.y
                    (c.t + c.stepSize (c.physSpeed input))⟩ }
      input r k
    constructor
    · rcases h2.2 with h | h <;> rw [h]
    · rcases h2.1 with h | h <;> rw [h]
      · exact Or.inl rfl
      · exact Or.inr rfl
  · rw [Car.update_cross c input r k hc hs ht hp]
    exact ⟨rfl, Or.inl rfl⟩

/-- Witness for C10: a moving player on a road whose first two points
coincide. -/
theorem C10_degenerate_segment_witness :
    degCar.stepSize (degCar.physSpeed (some emptyInput)) = 1 ∧
    (degCar.update (some emptyInput) 0 0).t = 0 ∧
    ((degCar.update (some emptyInput) 0 0).pointIndex = degCar.pointIndex + 1 ∨
     (degCar.update (some emptyInput) 0 0).pointIndex = 0) := by
  have hs : ¬ degCar.physSpeed (some emptyInput) < 0.1 := by
    unfold Car.physSpeed
    simp [degCar, playerCarOn, emptyInput]
    norm_num
  have hdeg : degCar.segP1 = degCar.segP2 := rfl
  exact C10_degenerate_segment degCar (some emptyInput) 0 0 rfl hs
    (le_refl 0) hdeg

/-- C1 (amended): after an `update` in which the vehicle moves and the
advanced fraction stays below 1 (no segment boundary crossed), the position
equals the linear interpolation of the two points bracketed by `pointIndex`
at the updated fraction `t ∈ [0,1)` and hence lies in the convex hull of the
two points.  When an update crosses a segment boundary the stored position
remains the interpolation of the previous bracket at the overshot fraction
`≥ 1`, so the invariant as originally stated does not survive such updates
(see the counterexample). -/
theorem C1_position_on_segment (c : Car) (input : Option Input) (r : ℝ)
    (k : ℕ) (hc : c.crashed = false) (hs : ¬ c.physSpeed input < 0.1)
    (ht0 : 0 ≤ c.t)
    (ht1 : c.t + c.stepSize (c.physSpeed input) < 1) :
    (c.update input r k).currentRoad = c.currentRoad ∧
    (c.update input r k).pointIndex = c.pointIndex ∧
    0 ≤ (c.update input r k).t ∧ (c.update input r k).t < 1 ∧
    (c.update input r k).x =
      Utils.lerp ((c.update input r k).segP1).x
        ((c.update input r k).segP2).x ((c.update input r k).t) ∧
    (c.update input r k).y =
      Utils.lerp ((c.update input r k).segP1).y
        ((c.update input r k).segP2).y ((c.update input r k).t) ∧
    min c.segP1.x c.segP2.x ≤ (c.update input r k).x ∧
    (c.update input r k).x ≤ max c.segP1.x c.segP2.x ∧
    min c.segP1.y c.segP2.y ≤ (c.update input r k).y ∧
    (c.update input r k).y ≤ max c.segP1.y c.segP2.y := by
  have hT0 : 0 ≤ c.t + c.stepSize (c.physSpeed input) :=
    add_nonneg ht0 (c.stepSize_nonneg _ (c.physSpeed_nonneg input))
  have hx := Utils.lerp_mem_segment c.segP1.x c.segP2.x
    (c.t + c.stepSize (c.physSpeed input)) hT0 (le_of_lt ht1)
  have hy := Utils.lerp_mem_segment c.segP1.y c.segP2.y
    (c.t + c.stepSize (c.physSpeed input)) hT0 (le_of_lt ht1)
  rw [Car.update_move c input r k hc hs (not_le.mpr ht1)]
  exact ⟨rfl, rfl, hT0, ht1, rfl, rfl, hx.1, hx.2, hy.1, hy.2⟩

/-- Witness for C1: a slow player on the long straight road. -/
theorem C1_position_on_segment_witness :
    (wCar.update (some emptyInput) 0 0).pointIndex = wCar.pointIndex ∧
    0 ≤ (wCar.update (some emptyInput) 0 0).t ∧
    (wCar.update (some emptyInput) 0 0).t < 1 ∧
    (wCar.update (some emptyInput) 0 0).x =
      Utils.lerp ((wCar.update (some emptyInput) 0 0).segP1).x
        ((wCar.update (some emptyInput) 0 0).segP2).x
        ((wCar.update (some emptyInput) 0 0).t) := by
  have hphys : wCar.physSpeed (some emptyInput) = 1.92 := by
    unfold Car.physSpeed
    simp [wCar, playerCarOn, emptyInput]
    norm_num
  have hseg : Utils.dist wCar.segP1 wCar.segP2 = 1000 := by
    have h : Utils.dist wCar.segP1 wCar.segP2 =
        Utils.dist ⟨(0:ℝ), (0:ℝ)⟩ ⟨(1000:ℝ), (0:ℝ)⟩ := rfl
    rw [h, Utils.dist_horizontal]
    norm_num
  have hstep : wCar.stepSize (wCar.physSpeed (some emptyInput)) =
      1.92 / 1000 := by
    unfold Car.stepSize
    dsimp only
    rw [hseg, if_pos (by norm_num : (1000:ℝ) > 0), hphys]
  have hs : ¬ wCar.physSpeed (some emptyInput) < 0.1 := by
    rw [hphys]
    norm_num
  have ht1 : wCar.t + wCar.stepSize (wCar.physSpeed (some emptyInput)) < 1 := by
    have h0 : wCar.t = 0 := rfl
    rw [h0, hstep]
    norm_num
  have h := C1_position_on_segment wCar (some emptyInput) 0 0 rfl hs
    (le_refl 0) ht1
  exact ⟨h.2.1, h.2.2.1, h.2.2.2.1, h.2.2.2.2.1⟩

/-- C1 counterexample: a coasting player with speed 19.2 on the three-point
road overshoots the first point pair (`t` reaches 1.92); after that update
`pointIndex = 1` and `t = 0`, but the stored position is 19.2 units along
the old bracket, not the interpolation of the new bracket at `t = 0`. -/
theorem C1_counterexample :
    ¬ ((ceCar.update (some emptyInput) 0 0).x =
      Utils.lerp ((ceCar.update (some emptyInput) 0 0).segP1).x
        ((ceCar.update (some emptyInput) 0 0).segP2).x
        ((ceCar.update (some emptyInput) 0 0).t)) := by
  have hphys : ceCar.physSpeed (some emptyInput) = 19.2 := by
    unfold Car.physSpeed
    simp [ceCar, playerCarOn, emptyInput]
    norm_num
  have hseg : Utils.dist ceCar.segP1 ceCar.segP2 = 10 := by
    have h : Utils.dist ceCar.segP1 ceCar.segP2 =
        Utils.dist ⟨(0:ℝ), (0:ℝ)⟩ ⟨(10:ℝ), (0:ℝ)⟩ := rfl
    rw [h, Utils.dist_horizontal]
    norm_num
  have hstep : ceCar.stepSize (ceCar.physSpeed (some emptyInput)) = 1.92 := by
    unfold Car.stepSize
    dsimp only
    rw [hseg, if_pos (by norm_num : (10:ℝ) > 0), hphys]
    norm_num
  have hs : ¬ ceCar.physSpeed (some emptyInput) < 0.1 := by
    rw [hphys]
    norm_num
  have ht : 1 ≤ ceCar.t + ceCar.stepSize (ceCar.physSpeed (some emptyInput)) := by
    have h0 : ceCar.t = 0 := rfl
    rw [h0, hstep]
    norm_num
  have hp : ¬ (ceCar.currentRoad.points.length - 1 ≤ ceCar.pointIndex + 1) := by
    have h1 : ceCar.currentRoad.points.length = 3 := rfl
    have h2 : ceCar.pointIndex = 0 := rfl
    rw [h1, h2]
    omega
  intro hcontra
  rw [Car.update_cross ceCar (some emptyInput) 0 0 rfl hs ht hp] at hcontra
  have h2 : Utils.lerp ceCar.segP1.x ceCar.segP2.x
      (ceCar.t + ceCar.stepSize (ceCar.physSpeed (some emptyInput))) =
      Utils.lerp (⟨(10:ℝ), 0⟩ : Pt).x (⟨(20:ℝ), 0⟩ : Pt).x 0 := hcontra
  rw [hstep] at h2
  have e1 : ceCar.segP1.x = 0 := rfl
  have e2 : ceCar.segP2.x = 10 := rfl
  have e3 : ceCar.t = 0 := rfl
  rw [e1, e2, e3] at h2
  unfold Utils.lerp at h2
  norm_num at h2

theorem playerPick_single (mouseAngle : ℝ) (rd bestRoad : Road) :
    playerPick mouseAngle [rd] bestRoad = rd := rfl

theorem selectWeighted_single (rd : Road) (w rv : ℝ) :
    selectWeighted [(rd, w)] rv rd = rd := by
  unfold selectWeighted
  split
  · rfl
  · rfl

theorem Car.botChoose_single (c : Car) (sensorData : Input) (rd : Road)
    (r : ℝ) : c.botChoose sensorData [rd] r = rd := by
  unfold Car.botChoose Car.weightedOptions
  dsimp only [List.map]
  exact selectWeighted_single _ _ _

/-- C7: the intersection candidate set is the end node's outgoing roads with
the current road's reverse filtered out, the full outgoing set being restored
whenever the filter leaves nothing; in particular at a node whose sole
outgoing road is the current road's reverse, the vehicle (player or bot,
whatever the choice inputs) switches onto that reverse road and its crashed
flag is unchanged. -/
theorem C7_reverse_restored (c : Car) (intersection : Node)
    (input : Option Input) (r : ℝ) (k : ℕ) (ridx : ℕ) (rev : Road)
    (hn : c.network.nodes.get? c.currentRoad.endNodeIdx =
      some intersection) :
    ((intersection.outgoing.map (fun i => c.network.roads.getD i default)).filter
        (fun rd => (rd.id : ℤ) != c.currentRoad.reverseId) ≠ [] →
      c.intersectionCandidates intersection =
        (intersection.outgoing.map
          (fun i => c.network.roads.getD i default)).filter
          (fun rd => (rd.id : ℤ) != c.currentRoad.reverseId)) ∧
    ((intersection.outgoing.map (fun i => c.network.roads.getD i default)).filter
        (fun rd => (rd.id : ℤ) != c.currentRoad.reverseId) = [] →
      c.intersectionCandidates intersection =
        intersection.outgoing.map (fun i => c.network.roads.getD i default)) ∧
    (intersection.outgoing = [ridx] →
      c.network.roads.getD ridx default = rev →
      (rev.id : ℤ) = c.currentRoad.reverseId →
      (c.handleIntersection input r k).currentRoad = rev ∧
      (c.handleIntersection input r k).crashed = c.crashed) := by
  refine ⟨?_, ?_, ?_⟩
  · intro hne
    unfold Car.intersectionCandidates
    dsimp only
    rw [if_neg (by simpa [List.length_eq_zero] using hne)]
  · intro he
    unfold Car.intersectionCandidates
    dsimp only
    rw [if_pos (by rw [he]; rfl)]
  · intro h1 h2 h3
    have hcand : c.intersectionCandidates intersection = [rev] := by
      unfold Car.intersectionCandidates
      rw [h1]
      dsimp only [List.map, List.filter]
      rw [h2]
      have : ((rev.id : ℤ) != c.currentRoad.reverseId) = false := by
        simp [h3]
      rw [this]
      rfl
    have he : ¬ intersection.outgoing = [] := by
      rw [h1]
      simp
    rw [Car.handleIntersection_main c input r k intersection
      (if c.isBot then
        c.botChoose (input.getD default) (c.intersectionCandidates intersection) r
      else
        playerPick (input.getD default).mouseAngle
          (c.intersectionCandidates intersection)
          ((c.intersectionCandidates intersection).getD 0 default))
      hn he rfl]
    rw [hcand]
    constructor
    · by_cases hb : c.isBot
      · rw [if_pos hb]
        exact Car.botChoose_single c (input.getD default) rev r
      · rw [if_neg hb]
        exact playerPick_single (input.getD default).mouseAngle rev
          ([rev].getD 0 default)
    · rfl

/-- Witness for C7: on the two-road mutual pair, the player takes the
reverse road and does not crash. -/
theorem C7_reverse_restored_witness :
    (carPair.handleIntersection none 0 0).currentRoad = roadR ∧
    (carPair.handleIntersection none 0 0).crashed = false := by
  have hn : carPair.network.nodes.get? carPair.currentRoad.endNodeIdx =
      some nodeEnd := rfl
  have h := (C7_reverse_restored carPair nodeEnd none 0 0 1 roadR hn).2.2
    rfl rfl rfl
  exact ⟨h.1, h.2⟩

/-- C2 (spec-modelled): with an avoid point, the spawn candidates are the
roads whose first point lies beyond the 500-unit exclusion radius; the
unrestricted road set is used when no candidate qualifies or no avoid point
is given.  (`Car.spawn` in `src/` lacks the avoid-point parameter its callers
pass, so this settles the claim against the spec-modelled
`spawnCandidates`.) -/
theorem C2_spawn_avoid_candidates (roads : List Road) (a : Pt) :
    spawnCandidates roads none = roads ∧
    ((roads.filter (fun rd =>
        decide (500 < Utils.dist (rd.points.getD 0 default) a))).length = 0 →
      spawnCandidates roads (some a) = roads) ∧
    ((roads.filter (fun rd =>
        decide (500 < Utils.dist (rd.points.getD 0 default) a))).length ≠ 0 →
      spawnCandidates roads (some a) =
        roads.filter (fun rd =>
          decide (500 < Utils.dist (rd.points.getD 0 default) a))) ∧
    (∀ rd ∈ spawnCandidates roads (some a),
      500 < Utils.dist (rd.points.getD 0 default) a ∨
      spawnCandidates roads (some a) = roads) := by
  refine ⟨rfl, ?_, ?_, ?_⟩
  · intro h
    unfold spawnCandidates
    dsimp only
    rw [if_pos h]
  · intro h
    unfold spawnCandidates
    dsimp only
    rw [if_neg h]
  · intro rd hmem
    by_cases hlen : (roads.filter (fun rd =>
        decide (500 < Utils.dist (rd.points.getD 0 default) a))).length = 0
    · right
      unfold spawnCandidates
      dsimp only
      rw [if_pos hlen]
    · left
      have heq : spawnCandidates roads (some a) =
          roads.filter (fun rd =>
            decide (500 < Utils.dist (rd.points.getD 0 default) a)) := by
        unfold spawnCandidates
        dsimp only
        rw [if_neg hlen]
      rw [heq] at hmem
      exact of_decide_eq_true (List.mem_filter.mp hmem).2

/-- Witness for C2: a road 1 unit from the avoid point is excluded while a
road 600 units away is kept; with no avoid point the set is unrestricted. -/
theorem C2_spawn_avoid_candidates_witness :
    spawnCandidates [roadNear, roadFar] none = [roadNear, roadFar] ∧
    spawnCandidates [roadNear, roadFar] (some ⟨0, 0⟩) = [roadFar] := by
  have hNear : ¬ (500 < Utils.dist (roadNear.points.getD 0 default)
      (⟨0, 0⟩ : Pt)) := by
    have h : Utils.dist (roadNear.points.getD 0 default) (⟨0, 0⟩ : Pt) =
        Utils.dist ⟨(1:ℝ), (0:ℝ)⟩ ⟨(0:ℝ), (0:ℝ)⟩ := rfl
    rw [h, Utils.dist_horizontal]
    norm_num
  have hFar : 500 < Utils.dist (roadFar.points.getD 0 default)
      (⟨0, 0⟩ : Pt) := by
    have h : Utils.dist (roadFar.points.getD 0 default) (⟨0, 0⟩ : Pt) =
        Utils.dist ⟨(600:ℝ), (0:ℝ)⟩ ⟨(0:ℝ), (0:ℝ)⟩ := rfl
    rw [h, Utils.dist_horizontal]
    norm_num
  have hfil : [roadNear, roadFar].filter (fun rd =>
      decide (500 < Utils.dist (rd.points.getD 0 default) (⟨0, 0⟩ : Pt))) =
      [roadFar] := by
    simp only [List.filter_cons, List.filter_nil, decide_eq_true_eq]
    rw [if_neg hNear, if_pos hFar]
  refine ⟨(C2_spawn_avoid_candidates [roadNear, roadFar] ⟨0, 0⟩).1, ?_⟩
  have h := (C2_spawn_avoid_candidates [roadNear, roadFar] ⟨0, 0⟩).2.2.1
    (by rw [hfil]; simp)
  rw [h, hfil]

theorem Car.spawn_settings (c : Car) (k : ℕ) :
    (c.spawn k).isBot = c.isBot ∧
    (c.spawn k).acceleration = c.acceleration ∧
    (c.spawn k).friction = c.friction ∧
    (c.spawn k).maxSpeed = c.maxSpeed := by
  unfold Car.spawn
  split <;> exact ⟨rfl, rfl, rfl, rfl⟩

theorem Car.deadEnd_settings (c : Car) (k : ℕ) :
    (c.deadEnd k).isBot = c.isBot ∧
    (c.deadEnd k).acceleration = c.acceleration ∧
    (c.deadEnd k).friction = c.friction ∧
    (c.deadEnd k).maxSpeed = c.maxSpeed := by
  unfold Car.deadEnd
  split
  · exact Car.spawn_settings c k
  · exact ⟨rfl, rfl, rfl, rfl⟩

theorem Car.handleIntersection_settings (c : Car) (input : Option Input)
    (r : ℝ) (k : ℕ) :
    (c.handleIntersection input r k).isBot = c.isBot ∧
    (c.handleIntersection input r k).acceleration = c.acceleration ∧
    (c.handleIntersection input r k).friction = c.friction ∧
    (c.handleIntersection input r k).maxSpeed = c.maxSpeed := by
  rcases hn : c.network.nodes.get? c.currentRoad.endNodeIdx with _ | node
  · rw [Car.handleIntersection_noNode c input r k hn]
    exact Car.deadEnd_settings c k
  · by_cases he : node.outgoing = []
    · rw [Car.handleIntersection_emptyOut c input r k node hn he]
      exact Car.deadEnd_settings c k
    · rw [Car.handleIntersection_main c input r k node _ hn he rfl]
      exact ⟨rfl, rfl, rfl, rfl⟩

theorem Car.update_settings (c : Car) (input : Option Input) (r : ℝ)
    (k : ℕ) :
    (c.update input r k).isBot = c.isBot ∧
    (c.update input r k).acceleration = c.acceleration ∧
    (c.update input r k).friction = c.friction ∧
    (c.update input r k).maxSpeed = c.maxSpeed := by
  by_cases hc : c.crashed = true
  · rw [Car.update_crashed c input r k hc]
    exact ⟨rfl, rfl, rfl, rfl⟩
  · have hc2 : c.crashed = false := by
      revert hc
      cases c.crashed <;> simp
    by_cases hs : c.physSpeed input < 0.1
    · rw [Car.update_slow c input r k hc2 hs]
      exact ⟨rfl, rfl, rfl, rfl⟩
    · by_cases ht : 1 ≤ c.t + c.stepSize (c.physSpeed input)
      · by_cases hp : c.currentRoad.points.length - 1 ≤ c.pointIndex + 1
        · rw [Car.update_intersect c input r k hc2 hs ht hp]
          exact ⟨(Car.handleIntersection_settings _ input r k).1,
            (Car.handleIntersection_settings _ input r k).2.1,
            (Car.handleIntersection_settings _ input r k).2.2.1,
            (Car.handleIntersection_settings _ input r k).2.2.2⟩
        · rw [Car.update_cross c input r k hc2 hs ht hp]
          exact ⟨rfl, rfl, rfl, rfl⟩
      · rw [Car.update_move c input r k hc2 hs ht]
        exact ⟨rfl, rfl, rfl, rfl⟩

theorem Car.handleIntersection_speed_player (c : Car) (input : Option Input)
    (r : ℝ) (k : ℕ) (hb : c.isBot = false) (hsp : 0 ≤ c.speed) :
    0 ≤ (c.handleIntersection input r k).speed ∧
    (c.handleIntersection input r k).speed ≤ c.speed := by
  rcases hn : c.network.nodes.get? c.currentRoad.endNodeIdx with _ | node
  · rw [Car.handleIntersection_noNode c input r k hn]
    unfold Car.deadEnd
    rw [if_neg (by simp [hb])]
    exact ⟨hsp, le_refl _⟩
  · by_cases he : node.outgoing = []
    · rw [Car.handleIntersection_emptyOut c input r k node hn he]
      unfold Car.deadEnd
      rw [if_neg (by simp [hb])]
      exact ⟨hsp, le_refl _⟩
    · rw [Car.handleIntersection_main c input r k node _ hn he rfl]
      constructor
      · exact mul_nonneg hsp (le_trans (by norm_num) (le_max_left 0.2 _))
      · apply mul_le_of_le_one_right hsp
        apply max_le (by norm_num)
        have hτ : 0 ≤ |Utils.angleDiff c.angle
            (if c.isBot then
              c.botChoose (input.getD default)
                (c.intersectionCandidates node) r
            else
              playerPick (input.getD default).mouseAngle
                (c.intersectionCandidates node)
                ((c.intersectionCandidates node).getD 0 default)).startAngle|
            / Real.pi * 1.5 := by
          have := Real.pi_pos
          positivity
        linarith

theorem Car.physSpeed_accel (c : Car) (hb : c.isBot = false) :
    c.physSpeed (some accelPlayerInput) =
      if (c.speed + c.acceleration) * c.friction < 0 then 0
      else (c.speed + c.acceleration) * c.friction := by
  unfold Car.physSpeed
  dsimp only
  rw [if_pos (show c.isBot = false ∧ (some accelPlayerInput).isSome = true
    from ⟨hb, rfl⟩)]
  simp only [Option.getD_some]
  norm_num [accelPlayerInput]

theorem C4Inv_physSpeed_bound (c : Car) (h : C4Inv c) :
    0 ≤ c.physSpeed (some accelPlayerInput) ∧
    c.physSpeed (some accelPlayerInput) < 36 / 5 := by
  obtain ⟨hb, hacc, hfr, hmax, hsp0, hsp1⟩ := h
  refine ⟨c.physSpeed_nonneg _, ?_⟩
  rw [Car.physSpeed_accel c hb, hacc, hfr]
  split
  · norm_num
  · nlinarith

theorem C4Inv_step (c : Car) (h : C4Inv c) :
    C4Inv (c.update (some accelPlayerInput) 0 0) := by
  obtain ⟨hb, hacc, hfr, hmax, hsp0, hsp1⟩ := h
  have hphys := C4Inv_physSpeed_bound c ⟨hb, hacc, hfr, hmax, hsp0, hsp1⟩
  have hset := Car.update_settings c (some accelPlayerInput) 0 0
  have hspeed : 0 ≤ (c.update (some accelPlayerInput) 0 0).speed ∧
      (c.update (some accelPlayerInput) 0 0).speed < 36 / 5 := by
    by_cases hc : c.crashed = true
    · rw [Car.update_crashed c (some accelPlayerInput) 0 0 hc]
      exact ⟨hsp0, hsp1⟩
    · have hc2 : c.crashed = false := by
        revert hc
        cases c.crashed <;> simp
      by_cases hs : c.physSpeed (some accelPlayerInput) < 0.1
      · rw [Car.update_slow c (some accelPlayerInput) 0 0 hc2 hs]
        exact hphys
      · by_cases ht : 1 ≤ c.t +
            c.stepSize (c.physSpeed (some accelPlayerInput))
        · by_cases hp : c.currentRoad.points.length - 1 ≤ c.pointIndex + 1
          · rw [Car.update_intersect c (some accelPlayerInput) 0 0 hc2 hs
              ht hp]
            have hhi := Car.handleIntersection_speed_player
              { c with
                speed := c.physSpeed (some accelPlayerInput),
                t := 0,
                pointIndex := c.pointIndex + 1,
                x := Utils.lerp c.segP1.x c.segP2.x
                  (c.t + c.stepSize (c.physSpeed (some accelPlayerInput))),
                y := Utils.lerp c.segP1.y c.segP2.y
                  (c.t + c.stepSize (c.physSpeed (some accelPlayerInput))),
                angle := Utils.angleTo c.segP1 c.segP2,
                trail := c.trailNext
                  ⟨Utils.lerp c.segP1.x c.segP2.x
                    (c.t + c.stepSize (c.physSpeed (some accelPlayerInput))),
                   Utils.lerp c.segP1.y c.segP2.y
                    (c.t + c.stepSize (c.physSpeed (some accelPlayerInput)))⟩ }
              (some accelPlayerInput) 0 0 hb hphys.1
            exact ⟨hhi.1, lt_of_le_of_lt hhi.2 hphys.2⟩
          · rw [Car.update_cross c (some accelPlayerInput) 0 0 hc2 hs ht hp]
            exact hphys
        · rw [Car.update_move c (some accelPlayerInput) 0 0 hc2 hs ht]
          exact hphys
  exact ⟨hset.1.trans hb, hset.2.1.trans hacc, hset.2.2.1.trans hfr,
    hset.2.2.2.trans hmax, hspeed.1, hspeed.2⟩

theorem Car.playerRun_inv (c : Car) (h : C4Inv c) (n : ℕ) :
    C4Inv (c.playerRun n) := by
  induction n with
  | zero => exact h
  | succ n ih =>
      have heq : c.playerRun (n + 1) =
          (c.playerRun n).update (some accelPlayerInput) 0 0 := rfl
      rw [heq]
      exact C4Inv_step _ ih

/-- C4 (amended): a player with acceleration 0.3, friction 0.96 and maxSpeed
35 holding the accelerator from speed 0 keeps its speed in `[0, 36/5)` after
every Update: the sequence is bounded by the friction/acceleration
equilibrium `0.3 * 0.96 / (1 - 0.96) = 7.2` and in particular never exceeds
`maxSpeed`; it does not approach `maxSpeed` asymptotically (see the
counterexample). -/
theorem C4_speed_bounded (c : Car) (hb : c.isBot = false)
    (hacc : c.acceleration = 0.3) (hfr : c.friction = 0.96)
    (hmax : c.maxSpeed = 35) (hsp : c.speed = 0) (n : ℕ) :
    0 ≤ (c.playerRun n).speed ∧ (c.playerRun n).speed < 36 / 5 ∧
    (c.playerRun n).speed < (c.playerRun n).maxSpeed := by
  have h0 : C4Inv c :=
    ⟨hb, hacc, hfr, hmax, by rw [hsp], by rw [hsp]; norm_num⟩
  have h := Car.playerRun_inv c h0 n
  refine ⟨h.2.2.2.2.1, h.2.2.2.2.2, ?_⟩
  rw [h.2.2.2.1]
  linarith [h.2.2.2.2.2]

/-- Witness for C4 at the concrete straight-road player after 3 updates. -/
theorem C4_speed_bounded_witness :
    0 ≤ ((playerCarOn netLong roadLong).playerRun 3).speed ∧
    ((playerCarOn netLong roadLong).playerRun 3).speed <
      ((playerCarOn netLong roadLong).playerRun 3).maxSpeed := by
  have h := C4_speed_bounded (playerCarOn netLong roadLong) rfl rfl rfl rfl
    rfl 3
  exact ⟨h.1, h.2.2⟩

/-- C4 counterexample: the speed sequence of the accelerating player does
not tend to `maxSpeed = 35`; it stays below the equilibrium 7.2 forever. -/
theorem C4_counterexample :
    ¬ Filter.Tendsto
      (fun n => ((playerCarOn netLong roadLong).playerRun n).speed)
      Filter.atTop (nhds 35) := by
  intro h
  have h34 : ∀ᶠ x in nhds (35:ℝ), 34 < x :=
    eventually_gt_nhds (by norm_num)
  obtain ⟨n, hn⟩ := (h.eventually h34).exists
  have hinv := Car.playerRun_inv (playerCarOn netLong roadLong)
    ⟨rfl, rfl, rfl, rfl, le_refl 0,
     by show (0:ℝ) < 36 / 5; norm_num⟩ n
  have := hinv.2.2.2.2.2
  linarith

theorem Car.botWeight_base (road : Road) (aA rA : ℝ) :
    Car.botWeight road false aA 0 rA = 1 := by
  unfold Car.botWeight
  norm_num

theorem foldl_add_units (l : List Road) (acc : ℝ) :
    (l.map (fun rd => (rd, (1:ℝ)))).foldl (fun a wo => a + wo.2) acc =
      acc + l.length := by
  induction l generalizing acc with
  | nil => simp
  | cons a l ih =>
      simp only [List.map, List.foldl, List.length_cons]
      rw [ih]
      push_cast
      ring

theorem selectWeighted_units (l : List Road) (rv : ℝ) (best : Road)
    (h0 : 0 ≤ rv) (h1 : rv < (l.length : ℝ)) :
    selectWeighted (l.map (fun rd => (rd, (1:ℝ)))) rv best =
      l.getD (⌈rv⌉ - 1).toNat default := by
  induction l generalizing rv with
  | nil => simp at h1; linarith
  | cons a l ih =>
      dsimp only [List.map]
      rw [selectWeighted]
      by_cases h : rv - (a, (1:ℝ)).2 ≤ 0
      · rw [if_pos h]
        dsimp only at h
        have hceil0 : ⌈rv⌉ ≤ 1 := by
          rw [Int.ceil_le]
          push_cast
          linarith
        have hceil1 : 0 ≤ ⌈rv⌉ := Int.ceil_nonneg h0
        have he : (⌈rv⌉ - 1).toNat = 0 := by omega
        rw [he]
        rfl
      · rw [if_neg h]
        dsimp only at h ⊢
        push_neg at h
        have h2 : 1 < rv := by linarith
        have hlen : rv - 1 < (l.length : ℝ) := by
          simp only [List.length_cons] at h1
          push_cast at h1
          linarith
        rw [ih (rv - 1) (by linarith) hlen]
        have hceil : 2 ≤ ⌈rv⌉ := by
          have hx := Int.lt_ceil.mpr (show ((1:ℤ):ℝ) < rv by push_cast; linarith)
          omega
        rw [Int.ceil_sub_one]
        have hn : (⌈rv⌉ - 1).toNat = (⌈rv⌉ - 1 - 1).toNat + 1 := by omega
        rw [hn]
        rfl

/-- C8: the bot AI attaches to every candidate the weight
`1 + attraction term + repulsion term` (the attraction term present exactly
when a non-crashed player reference exists, the repulsion term exactly when
the closest other bot is within 300 units), draws `r * totalWeight` and
selects by walking the candidates subtracting weights until the remainder is
non-positive; with no player and no bot sensor data every weight is 1 and
the draw `r ∈ [0,1)` selects candidate `⌈r·n⌉ - 1`, i.e. the choice is
uniform over the candidates. -/
theorem C8_bot_weighted_choice (c : Car) (sensorData : Input)
    (candidates : List Road) (r : ℝ) :
    (∀ p, sensorData.player = some p → p.crashed = false →
      c.attractionOf sensorData =
        (true, Utils.angleTo ⟨c.x, c.y⟩ ⟨p.x, p.y⟩)) ∧
    (∀ p, sensorData.player = some p → p.crashed = true →
      c.attractionOf sensorData = (false, 0)) ∧
    (sensorData.player = none → c.attractionOf sensorData = (false, 0)) ∧
    (∀ bots b d, sensorData.bots = some bots →
      closestScan ⟨c.x, c.y⟩ bots = some (b, d) → d < 300 →
      c.repulsionOf sensorData =
        (1 - d / 300, Utils.angleTo ⟨b.x, b.y⟩ ⟨c.x, c.y⟩)) ∧
    (∀ bots b d, sensorData.bots = some bots →
      closestScan ⟨c.x, c.y⟩ bots = some (b, d) → ¬ d < 300 →
      c.repulsionOf sensorData = (0, 0)) ∧
    (sensorData.bots = none → c.repulsionOf sensorData = (0, 0)) ∧
    (∀ road (hA : Bool) (aA rS rA : ℝ),
      Car.botWeight road hA aA rS rA =
        1 + (if hA then
          (1 - |Utils.angleDiff road.startAngle aA| / Real.pi) * 10 else 0)
          + (if 0 < rS then
          (1 - |Utils.angleDiff road.startAngle rA| / Real.pi) * 50 * rS
          else 0)) ∧
    (c.botChoose sensorData candidates r =
      selectWeighted (c.weightedOptions sensorData candidates)
        (r * (c.weightedOptions sensorData candidates).foldl
          (fun acc wo => acc + wo.2) 0)
        (candidates.getD 0 default)) ∧
    (sensorData.player = none → sensorData.bots = none →
      0 ≤ r → r < 1 → candidates ≠ [] →
      c.botChoose sensorData candidates r =
        candidates.getD (⌈r * (candidates.length : ℝ)⌉ - 1).toNat default) := by
  refine ⟨?_, ?_, ?_, ?_, ?_, ?_, ?_, rfl, ?_⟩
  · intro p hp hcr
    unfold Car.attractionOf
    rw [hp]
    dsimp only
    rw [if_pos hcr]
  · intro p hp hcr
    unfold Car.attractionOf
    rw [hp]
    dsimp only
    rw [if_neg (by simp [hcr])]
  · intro hp
    unfold Car.attractionOf
    rw [hp]
  · intro bots b d hb hscan hd
    unfold Car.repulsionOf
    rw [hb]
    dsimp only
    rw [hscan]
    dsimp only
    rw [if_pos hd]
  · intro bots b d hb hscan hd
    unfold Car.repulsionOf
    rw [hb]
    dsimp only
    rw [hscan]
    dsimp only
    rw [if_neg hd]
  · intro hb
    unfold Car.repulsionOf
    rw [hb]
  · intro road hA aA rS rA
    unfold Car.botWeight
    dsimp only
    by_cases h1 : hA
    · rw [if_pos h1, if_pos h1]
      by_cases h2 : 0 < rS
      · rw [if_pos h2, if_pos h2]
      · rw [if_neg h2, if_neg h2]
        ring
    · rw [if_neg h1, if_neg h1]
      by_cases h2 : 0 < rS
      · rw [if_pos h2, if_pos h2]
        ring
      · rw [if_neg h2, if_neg h2]
        ring
  · intro hpl hbots hr0 hr1 hne
    have hA : c.attractionOf sensorData = (false, 0) := by
      unfold Car.attractionOf
      rw [hpl]
    have hR : c.repulsionOf sensorData = (0, 0) := by
      unfold Car.repulsionOf
      rw [hbots]
    have hW : c.weightedOptions sensorData candidates =
        candidates.map (fun rd => (rd, (1:ℝ))) := by
      unfold Car.weightedOptions
      simp only [hA, hR]
      simp only [Car.botWeight_base]
    unfold Car.botChoose
    simp only [hW, foldl_add_units, zero_add]
    have hlenpos : 0 < (candidates.length : ℝ) := by
      have h := List.length_pos.mpr hne
      exact_mod_cast h
    exact selectWeighted_units candidates (r * candidates.length)
      (candidates.getD 0 default)
      (mul_nonneg hr0 (le_of_lt hlenpos))
      (mul_lt_of_lt_one_left hlenpos hr1)

/-- Witness for C8: with no sensor data and three candidates, the draw
`r = 1/2` lands on the middle candidate. -/
theorem C8_bot_weighted_choice_witness :
    carPair.botChoose emptyInput [candA, candB, candC] (1 / 2) = candB := by
  have h := (C8_bot_weighted_choice carPair emptyInput [candA, candB, candC]
    (1 / 2)).2.2.2.2.2.2.2.2 rfl rfl (by norm_num) (by norm_num) (by simp)
  rw [h]
  have hlen : (([candA, candB, candC] : List Road).length : ℝ) = 3 := by
    norm_num
  rw [hlen]
  have hc : ⌈(1 / 2 : ℝ) * 3⌉ = 2 := by
    rw [show (1 / 2 : ℝ) * 3 = 3 / 2 by norm_num, Int.ceil_eq_iff]
    norm_num
  rw [hc]
  rfl

theorem RoadNetwork.createRoadSegment_roads (net : RoadNetwork)
    (points : List Pt) :
    ∃ road : Road,
      (net.createRoadSegment points).1.roads = net.roads ++ [road] ∧
      road.id = net.roads.length ∧ road.reverseId = -1 :=
  ⟨_, rfl, rfl, rfl⟩

theorem RoadNetwork.linkLastTwo_append (roads : List Road) (a b : Road) :
    RoadNetwork.linkLastTwo (roads ++ [a, b]) =
      roads ++ [{ a with reverseId := (b.id : ℤ) },
                { b with reverseId := (a.id : ℤ) }] := by
  unfold RoadNetwork.linkLastTwo
  have hlen : (roads ++ [a, b]).length = roads.length + 2 := by simp
  rw [hlen, if_neg (by omega)]
  have e0 : roads.length + 2 - 2 = roads.length := by omega
  have e1 : roads.length + 2 - 1 = roads.length + 1 := by omega
  rw [e0, e1]
  have g1 : (roads ++ [a, b]).getD roads.length default = a := by
    rw [List.getD_append_right _ _ _ _ (le_refl _)]
    simp
  have g2 : (roads ++ [a, b]).getD (roads.length + 1) default = b := by
    rw [List.getD_append_right _ _ _ _ (by omega)]
    have : roads.length + 1 - roads.length = 1 := by omega
    rw [this]
    rfl
  rw [g1, g2, List.take_left]

theorem RoadNetwork.emitSegmentPair_roads (net : RoadNetwork)
    (pts : List Pt) :
    ∃ a b : Road, (net.emitSegmentPair pts).roads = net.roads ++ [a, b] ∧
      a.id = net.roads.length ∧ b.id = net.roads.length + 1 ∧
      a.reverseId = (net.roads.length : ℤ) + 1 ∧
      b.reverseId = (net.roads.length : ℤ) := by
  obtain ⟨ra, h1, h1id, _⟩ := RoadNetwork.createRoadSegment_roads net pts
  obtain ⟨rb, h2, h2id, _⟩ := RoadNetwork.createRoadSegment_roads
    (net.createRoadSegment pts).1 ((net.createRoadSegment pts).2.reverse)
  have hbid : rb.id = net.roads.length + 1 := by
    rw [h2id, h1]
    simp
  refine ⟨{ ra with reverseId := (rb.id : ℤ) },
    { rb with reverseId := (ra.id : ℤ) }, ?_, ?_, ?_, ?_, ?_⟩
  · show RoadNetwork.linkLastTwo
      ((net.createRoadSegment pts).1.createRoadSegment
        ((net.createRoadSegment pts).2.reverse)).1.roads = _
    rw [h2, h1, List.append_assoc]
    exact RoadNetwork.linkLastTwo_append net.roads ra rb
  · exact h1id
  · exact hbid
  · show (rb.id : ℤ) = (net.roads.length : ℤ) + 1
    rw [hbid]
    push_cast
    ring
  · show (ra.id : ℤ) = (net.roads.length : ℤ)
    rw [h1id]

theorem pairLinked_emit (net : RoadNetwork) (pts : List Pt)
    (h : pairLinked net.roads) :
    pairLinked (net.emitSegmentPair pts).roads := by
  obtain ⟨a, b, hr, haid, hbid, harev, hbrev⟩ :=
    RoadNetwork.emitSegmentPair_roads net pts
  obtain ⟨heven, hidx⟩ := h
  rw [hr]
  constructor
  · simp only [List.length_append, List.length_cons, List.length_nil]
    omega
  · intro i r hget
    by_cases hi : i < net.roads.length
    · rw [List.get?_append hi] at hget
      exact hidx i r hget
    · push_neg at hi
      rw [List.get?_append_right hi] at hget
      have hlt : i - net.roads.length < 2 := by
        by_contra hge
        push_neg at hge
        rw [List.get?_eq_none.mpr (by simp; omega)] at hget
        exact Option.noConfusion hget
      have hcase : i - net.roads.length = 0 ∨ i - net.roads.length = 1 := by
        omega
      rcases hcase with h0 | h1
      · rw [h0] at hget
        simp only [List.get?] at hget
        injection hget with hget
        subst hget
        have hieq : i = net.roads.length := by omega
        subst hieq
        refine ⟨haid, ?_⟩
        rw [if_pos (by omega), harev]
      · rw [h1] at hget
        simp only [List.get?] at hget
        injection hget with hget
        subst hget
        have hieq : i = net.roads.length + 1 := by omega
        subst hieq
        constructor
        · rw [hbid]
        · rw [if_neg (by omega), hbrev]
          push_cast
          ring

theorem pairLinked_splitWalk (project : ℝ × ℝ → Pt) (counts : ℤ × ℤ → ℕ)
    (coords : List (ℝ × ℝ)) :
    ∀ (net : RoadNetwork) (acc : List Pt), pairLinked net.roads →
      pairLinked (RoadNetwork.splitWalk project counts net acc coords).roads := by
  induction coords with
  | nil =>
      intro net acc h
      exact h
  | cons cc rest ih =>
      intro net acc h
      rw [RoadNetwork.splitWalk]
      split
      · exact ih _ _ (pairLinked_emit _ _ h)
      · exact ih _ _ h

theorem pairLinked_foldl (project : ℝ × ℝ → Pt) (counts : ℤ × ℤ → ℕ)
    (fs : List Feature) :
    ∀ net : RoadNetwork, pairLinked net.roads →
      pairLinked ((fs.foldl
        (fun n f => RoadNetwork.splitWalk project counts n [] f.coords)
        net).roads) := by
  induction fs with
  | nil => exact fun net h => h
  | cons f fs ih =>
      intro net h
      exact ih _ (pairLinked_splitWalk project counts f.coords net [] h)

theorem pairLinked_parse (features : List Feature) :
    pairLinked (RoadNetwork.parse features).roads := by
  unfold RoadNetwork.parse
  exact pairLinked_foldl _ _ features ⟨[], []⟩
    ⟨rfl, fun i r h => by simp at h⟩

/-- C9: in every graph built by `parse`, each road's `reverseId` names a road
whose own `reverseId` points back (or is the dead-end sentinel `-1`, which
`parse` in fact never leaves in place since segments are always emitted and
cross-linked in forward/reverse pairs). -/
theorem C9_reverse_symmetry (features : List Feature) (i : ℕ) :
    revSymAt (RoadNetwork.parse features).roads i := by
  obtain ⟨heven, hidx⟩ := pairLinked_parse features
  unfold revSymAt
  split
  · trivial
  · next r hget =>
      left
      obtain ⟨hid, hrev⟩ := hidx i r hget
      have hlen : i < (RoadNetwork.parse features).roads.length := by
        by_contra hge
        push_neg at hge
        rw [List.get?_eq_none.mpr hge] at hget
        exact Option.noConfusion hget
      by_cases hpar : i % 2 = 0
      · have hi1 : i + 1 < (RoadNetwork.parse features).roads.length := by
          omega
        rcases hget2 : (RoadNetwork.parse features).roads.get? (i + 1)
          with _ | r2
        · rw [List.get?_eq_none] at hget2
          omega
        · obtain ⟨hid2, hrev2⟩ := hidx (i + 1) r2 hget2
          refine ⟨r2, List.get?_mem hget2, ?_, ?_⟩
          · rw [hrev, if_pos hpar, hid2]
            push_cast
            ring
          · rw [hrev2, if_neg (by omega : ¬ (i + 1) % 2 = 0), hid]
            push_cast
            ring
      · have hi0 : 1 ≤ i := by omega
        have hi1 : i - 1 < (RoadNetwork.parse features).roads.length := by
          omega
        rcases hget2 : (RoadNetwork.parse features).roads.get? (i - 1)
          with _ | r2
        · rw [List.get?_eq_none] at hget2
          omega
        · obtain ⟨hid2, hrev2⟩ := hidx (i - 1) r2 hget2
          refine ⟨r2, List.get?_mem hget2, ?_, ?_⟩
          · rw [hrev, if_neg hpar, hid2]
            omega
          · rw [hrev2, if_pos (by omega : (i - 1) % 2 = 0), hid]
            omega

end NeonDrive
